import Mathlib

/-!
# EEVEE screen-space effects (eevee_effects.c)

A shallow embedding of `source/blender/draw/engines/eevee/eevee_effects.c`:
the per-frame effect resolution and buffer provisioning of `EEVEE_effects_init`,
the HiZ pyramid of `EEVEE_create_minmax_buffer`, the mip-chain driver of
`EEVEE_downsample_buffer`, and the compositor `EEVEE_draw_effects`.

Conventions of the embedding.

* A C pointer is an `Option`: `none` is `NULL`.
* A GPU texture or framebuffer object is a record carrying the name (`id`) it was
  created under; pixel contents and framebuffer attachments are not represented.
* `EEVEE_EffectsFlag` words are natural numbers with `|||` and `&&&`.
* The viewport size, which the draw manager stores as floats, is the pair of integer
  pixel counts; its float value is the conversion of the count to binary32.
* Float arithmetic is binary32 (`F32`): a result is the exact rational result rounded
  to the nearest value with a 24 bit significand, ties to even, an overflow gives an
  infinity and a division by zero an infinity or NaN. The sign of a zero is not
  represented.
* Everything that lives outside this file (flag values, the effect modules, the GPU
  backend queries, the draw manager state) is a parameter of the definitions.
* Shader programs and the pass construction of `EEVEE_effects_cache_init` are not
  represented: a pass is known by its name only.
-/

namespace Eevee

/-! ## Data model -/

/-- The flag words `eevee_effects.c` tests. Their values come from headers that
are not part of the embedded file, so they are parameters. -/
structure EffectFlags where
  EFFECT_VELOCITY_BUFFER : Nat
  EFFECT_NORMAL_BUFFER : Nat
  EFFECT_POST_BUFFER : Nat
  EFFECT_DEPTH_DOUBLE_BUFFER : Nat
  EFFECT_DOUBLE_BUFFER : Nat
  EFFECT_TAA : Nat
  EFFECT_TAA_REPROJECT : Nat
  SCE_PASS_NORMAL : Nat

/-- Texture formats requested by `EEVEE_effects_init`. -/
inductive GPUTextureFormat where
  | GPU_RGBA16F
  | GPU_R32F
  | GPU_DEPTH_COMPONENT24
  | GPU_DEPTH24_STENCIL8
  | GPU_RG16
deriving DecidableEq, Repr

/-- A texture object: its name and the arguments it was created with
(`DRW_TEX_FILTER` and `DRW_TEX_MIPMAP` are the two booleans). -/
structure GPUTexture where
  id : Nat
  w : Int
  h : Int
  format : GPUTextureFormat
  filter : Bool
  mipmap : Bool
deriving DecidableEq, Repr

/-- A framebuffer object, identified by its name. -/
structure GPUFrameBuffer where
  id : Nat
deriving DecidableEq, Repr

/-- A 4x4 float matrix, kept as the raw sequence of its sixteen words; the code only
copies matrices. -/
abbrev Mat4 := List Nat

/-- The fields of `EEVEE_TextureList` used by the file. -/
structure EEVEE_TextureList where
  color : Option GPUTexture
  color_post : Option GPUTexture
  maxzbuffer : Option GPUTexture
  depth_double_buffer : Option GPUTexture
  color_double_buffer : Option GPUTexture
  taa_history : Option GPUTexture
deriving DecidableEq, Repr

/-- The fields of `EEVEE_FramebufferList` used by the file. -/
structure EEVEE_FramebufferList where
  main_fb : Option GPUFrameBuffer
  main_color_fb : Option GPUFrameBuffer
  effect_fb : Option GPUFrameBuffer
  effect_color_fb : Option GPUFrameBuffer
  downsample_fb : Option GPUFrameBuffer
  velocity_resolve_fb : Option GPUFrameBuffer
  double_buffer_depth_fb : Option GPUFrameBuffer
  double_buffer_fb : Option GPUFrameBuffer
  double_buffer_color_fb : Option GPUFrameBuffer
  taa_history_fb : Option GPUFrameBuffer
  taa_history_color_fb : Option GPUFrameBuffer
deriving DecidableEq, Repr

/-- The fields of `EEVEE_EffectsInfo` used by the file. -/
structure EEVEE_EffectsInfo where
  enabled_effects : Nat
  ssr_normal_input : Option GPUTexture
  velocity_tx : Option GPUTexture
  swap_double_buffer : Bool
  source_buffer : Option GPUTexture
  target_buffer : Option GPUFrameBuffer
  final_tx : Option GPUTexture
  final_fb : Option GPUFrameBuffer
  prev_persmat : Mat4
  velocity_curr_persinv : Mat4
  velocity_past_persmat : Mat4
deriving DecidableEq, Repr

/-- The fields of `EEVEE_PrivateData` (`stl->g_data`) used by the file. -/
structure EEVEE_PrivateData where
  valid_double_buffer : Bool
  valid_taa_history : Bool
deriving DecidableEq, Repr

/-- A binary32 value of the C type `float`: a finite value, kept as the rational it
denotes, an infinity with its sign, or NaN. -/
inductive F32 where
  | fin (q : ℚ)
  | inf (negative : Bool)
  | nan
deriving DecidableEq, Repr

/-- Rounding of a rational to the nearest integer, a tie going to the even one. -/
def round_half_even (x : ℚ) : Int :=
  if x - ⌊x⌋ < 1 / 2 then ⌊x⌋
  else if 1 / 2 < x - ⌊x⌋ then ⌊x⌋ + 1
  else if ⌊x⌋ % 2 = 0 then ⌊x⌋ else ⌊x⌋ + 1

/-- The binary exponent of a rational in binary32: `floor (log2 |q|)`, not below the
exponent -126 of the subnormal range. -/
def F32.exponent (q : ℚ) : Int := max (Int.log 2 |q|) (-126)

/-- The spacing of the binary32 values around a rational: the weight of the last of
the 24 bits of the significand. -/
def F32.ulp (q : ℚ) : ℚ := (2 : ℚ) ^ (F32.exponent q - 23)

/-- The binary32 result of an operation whose exact result is `q`: round to nearest,
ties to even; a rounded magnitude of `2^128` or more is an infinity. -/
def F32.round (q : ℚ) : F32 :=
  let r : ℚ := (round_half_even (q / F32.ulp q) : ℚ) * F32.ulp q
  if (2 : ℚ) ^ (128 : ℕ) ≤ |r| then F32.inf (decide (q < 0)) else F32.fin r

/-- The conversion of an `int` to `float`. -/
def F32.of_int (n : Int) : F32 := F32.round (n : ℚ)

/-- The `float` product. -/
def F32.mul : F32 → F32 → F32
  | F32.nan, _ => F32.nan
  | _, F32.nan => F32.nan
  | F32.inf s, F32.inf t => F32.inf (s != t)
  | F32.inf s, F32.fin b => if b = 0 then F32.nan else F32.inf (s != decide (b < 0))
  | F32.fin a, F32.inf t => if a = 0 then F32.nan else F32.inf (decide (a < 0) != t)
  | F32.fin a, F32.fin b => F32.round (a * b)

/-- The `float` quotient. A zero divisor is the positive zero, the only zero that the
conversion of an `int` and its product with a power of two produce. -/
def F32.div : F32 → F32 → F32
  | F32.nan, _ => F32.nan
  | _, F32.nan => F32.nan
  | F32.inf _, F32.inf _ => F32.nan
  | F32.inf s, F32.fin b => F32.inf (s != decide (b < 0))
  | F32.fin _, F32.inf _ => F32.fin 0
  | F32.fin a, F32.fin b =>
    if b = 0 then (if a = 0 then F32.nan else F32.inf (decide (a < 0)))
    else F32.round (a / b)

/-- The call `powf(2.0f, i)` of the C library for a loop index `i`: the binary32 value
of `2^i`. -/
def powf_two (i : Nat) : F32 := F32.round ((2 : ℚ) ^ i)

/-- The fields of `EEVEE_CommonUniformBuffer` (`sldata->common_data`) written by
`EEVEE_effects_init`: `mip_ratio` is `float[10][2]`. -/
structure EEVEE_CommonUniformBuffer where
  hiz_mip_offset : Int
  mip_ratio : Fin 10 → F32 × F32

/-- The draw passes of `EEVEE_PassList` created by `EEVEE_effects_cache_init`. -/
inductive Pass where
  | color_downsample_ps
  | color_downsample_cube_ps
  | maxz_downlevel_ps
  | maxz_downdepth_ps
  | maxz_downdepth_layer_ps
  | maxz_copydepth_ps
  | maxz_copydepth_layer_ps
  | velocity_resolve
deriving DecidableEq, Repr

/-- The calls into the draw manager and the GPU module that the file issues, in the
order they are issued. `mip_bind` is the rebinding of the framebuffer to one mip
level done by the recursive downsample before it runs the callback. -/
inductive DRWCall where
  | framebuffer_texture_attach (fb : Option GPUFrameBuffer) (tex : Option GPUTexture)
  | framebuffer_texture_detach (fb : Option GPUFrameBuffer) (tex : Option GPUTexture)
  | framebuffer_bind (fb : Option GPUFrameBuffer)
  | mip_bind (level : Nat) (w : Int) (h : Int)
  | draw_pass (p : Pass)
  | viewport_request_redraw
deriving DecidableEq, Repr

/-- The file-level `e_data` references set by the pyramid and downsample entry
points. -/
structure EngineData where
  depth_src : Option GPUTexture
  color_src : Option GPUTexture
  depth_src_layer : Int
deriving DecidableEq, Repr

/-- Names handed out so far by the GPU module for textures and framebuffers. -/
structure GPUState where
  next_tex : Nat
  next_fb : Nat
deriving DecidableEq, Repr

/-- Everything the entry points reach: `vedata` (`txl`, `fbl`, `stl->effects`,
`stl->g_data`), `sldata->common_data`, `e_data`, the GPU name counters and the log
of issued calls. `E` is the type of `stl->effects`. -/
structure EEVEE_DataOf (E : Type) where
  txl : EEVEE_TextureList
  fbl : EEVEE_FramebufferList
  effects : E
  g_data : EEVEE_PrivateData
  common_data : EEVEE_CommonUniformBuffer
  e_data : EngineData
  gpu : GPUState
  calls : List DRWCall

/-- The state once `stl->effects` is allocated. -/
abbrev EEVEE_Data := EEVEE_DataOf EEVEE_EffectsInfo

/-- The state as `EEVEE_effects_init` may find it: `stl->effects` can be `NULL`. -/
abbrev EEVEE_DataEntry := EEVEE_DataOf (Option EEVEE_EffectsInfo)

/-- What `EEVEE_effects_init` reads from outside `vedata`: `G.debug_value`,
`DRW_state_is_image_render()`, `view_layer->passflag`, the viewport size (pixel counts,
which the draw manager stores as floats), the GPU vendor test, the values returned by
the eight effect-module init functions (defined in other files; what they do to objects
of their own is not represented), the two textures handed back by the texture pool, and
the mip size query of the GPU module. -/
structure InitEnv where
  debug_value : Int
  is_image_render : Bool
  passflag : Nat
  viewport_size : Int × Int
  gpu_is_intel : Bool
  motion_blur_init : Nat
  bloom_init : Nat
  depth_of_field_init : Nat
  temporal_sampling_init : Nat
  occlusion_init : Nat
  subsurface_init : Nat
  screen_raytrace_init : Nat
  volumes_init : Nat
  pool_ssr_normal_input : Option GPUTexture
  pool_velocity_tx : Option GPUTexture
  GPU_texture_get_mipmap_size : Option GPUTexture → Nat → Int × Int

/-! ## Helpers of the draw manager and GPU module -/

/-- C integer division, which truncates toward zero. -/
def c_div (a b : Int) : Int := Int.tdiv a b

/-- The `max_ii` helper. -/
def max_ii (a b : Int) : Int := if a > b then a else b

/-- Modelled from the spec: `DRW_texture_ensure_2D` is defined outside the file. A
texture that is already there is left untouched; an absent one is created with the
requested size and format under a fresh name. -/
def DRW_texture_ensure_2D (gpu : GPUState) (tex : Option GPUTexture) (w h : Int)
    (format : GPUTextureFormat) (filter mipmap : Bool) : Option GPUTexture × GPUState :=
  match tex with
  | some t => (some t, gpu)
  | none => (some ⟨gpu.next_tex, w, h, format, filter, mipmap⟩,
      { gpu with next_tex := gpu.next_tex + 1 })

/-- Modelled from the spec: `DRW_texture_ensure_fullscreen_2D` is defined outside the
file. It is `DRW_texture_ensure_2D` at the viewport size. -/
def DRW_texture_ensure_fullscreen_2D (env : InitEnv) (gpu : GPUState)
    (tex : Option GPUTexture) (format : GPUTextureFormat) (filter mipmap : Bool) :
    Option GPUTexture × GPUState :=
  DRW_texture_ensure_2D gpu tex env.viewport_size.1 env.viewport_size.2 format filter mipmap

/-- Modelled from the spec: `GPU_framebuffer_create` is defined outside the file. It
returns a new framebuffer under a fresh name. -/
def GPU_framebuffer_create (gpu : GPUState) : Option GPUFrameBuffer × GPUState :=
  (some ⟨gpu.next_fb⟩, { gpu with next_fb := gpu.next_fb + 1 })

/-- Modelled from the spec: `GPU_framebuffer_ensure_config` is defined outside the
file. A framebuffer that is already there keeps its name; an absent one is created
first. -/
def GPU_framebuffer_ensure_config (gpu : GPUState) (fb : Option GPUFrameBuffer) :
    Option GPUFrameBuffer × GPUState :=
  match fb with
  | some f => (some f, gpu)
  | none => GPU_framebuffer_create gpu

/-- Modelled from the spec: `DRW_TEXTURE_FREE_SAFE` is defined outside the file. The
texture, if any, is released and the pointer is reset to `NULL`. -/
def DRW_TEXTURE_FREE_SAFE (_tex : Option GPUTexture) : Option GPUTexture := none

/-- Modelled from the spec: `GPU_FRAMEBUFFER_FREE_SAFE` is defined outside the file.
The framebuffer, if any, is released and the pointer is reset to `NULL`. -/
def GPU_FRAMEBUFFER_FREE_SAFE (_fb : Option GPUFrameBuffer) : Option GPUFrameBuffer := none

/-- The result of the `SETUP_BUFFER` and `CLEANUP_BUFFER` macros. -/
structure BufferTriple where
  tex : Option GPUTexture
  fb : Option GPUFrameBuffer
  fb_color : Option GPUFrameBuffer
  gpu : GPUState
deriving DecidableEq, Repr

/-- The `SETUP_BUFFER` macro. -/
def SETUP_BUFFER (env : InitEnv) (gpu : GPUState) (tex : Option GPUTexture)
    (fb fb_color : Option GPUFrameBuffer) : BufferTriple :=
  let r1 := DRW_texture_ensure_fullscreen_2D env gpu tex GPUTextureFormat.GPU_RGBA16F true true
  let r2 := GPU_framebuffer_ensure_config r1.2 fb
  let r3 := GPU_framebuffer_ensure_config r2.2 fb_color
  ⟨r1.1, r2.1, r3.1, r3.2⟩

/-- The `CLEANUP_BUFFER` macro. -/
def CLEANUP_BUFFER (gpu : GPUState) (tex : Option GPUTexture)
    (fb fb_color : Option GPUFrameBuffer) : BufferTriple :=
  ⟨DRW_TEXTURE_FREE_SAFE tex, GPU_FRAMEBUFFER_FREE_SAFE fb, GPU_FRAMEBUFFER_FREE_SAFE fb_color, gpu⟩

/-- The test `(flags & bit) != 0`. -/
def has_flag (flags bit : Nat) : Bool := (flags &&& bit) != 0

/-! ## EEVEE_effects_init -/

/-- The zero-filled `EEVEE_EffectsInfo` returned by `MEM_callocN`. -/
def EEVEE_EffectsInfo.calloc : EEVEE_EffectsInfo :=
  { enabled_effects := 0, ssr_normal_input := none, velocity_tx := none,
    swap_double_buffer := false, source_buffer := none, target_buffer := none,
    final_tx := none, final_fb := none, prev_persmat := List.replicate 16 0,
    velocity_curr_persinv := List.replicate 16 0,
    velocity_past_persmat := List.replicate 16 0 }

/-- Lines 166-170 of `EEVEE_effects_init`: allocate `stl->effects` when it is `NULL`. -/
def effects_ensure (vedata : EEVEE_DataEntry) : EEVEE_Data :=
  { txl := vedata.txl, fbl := vedata.fbl,
    effects := (match vedata.effects with
      | some e => e
      | none => EEVEE_EffectsInfo.calloc),
    g_data := vedata.g_data, common_data := vedata.common_data, e_data := vedata.e_data,
    gpu := vedata.gpu, calls := vedata.calls }

/-- The statement `effects->enabled_effects |= bits`. -/
def or_enabled (effects : EEVEE_EffectsInfo) (bits : Nat) : EEVEE_EffectsInfo :=
  { effects with enabled_effects := effects.enabled_effects ||| bits }

/-- Lines 172-188 of `EEVEE_effects_init`: the enabled effects of the frame. -/
def effects_resolve (F : EffectFlags) (env : InitEnv) (effects : EEVEE_EffectsInfo) :
    EEVEE_EffectsInfo :=
  let effects := { effects with enabled_effects := 0 }
  let effects := or_enabled effects (if env.debug_value = 9 then F.EFFECT_VELOCITY_BUFFER else 0)
  let effects := or_enabled effects env.motion_blur_init
  let effects := or_enabled effects env.bloom_init
  let effects := or_enabled effects env.depth_of_field_init
  let effects := or_enabled effects env.temporal_sampling_init
  let effects := or_enabled effects env.occlusion_init
  let effects := or_enabled effects env.subsurface_init
  let effects := or_enabled effects env.screen_raytrace_init
  let effects := or_enabled effects env.volumes_init
  if env.is_image_render && ((env.passflag &&& F.SCE_PASS_NORMAL) != 0) then
    or_enabled effects F.EFFECT_NORMAL_BUFFER
  else
    effects

/-- Lines 193-198: the ping-pong buffer. -/
def provision_color_post (F : EffectFlags) (env : InitEnv) (st : EEVEE_Data) : EEVEE_Data :=
  let r := if has_flag st.effects.enabled_effects F.EFFECT_POST_BUFFER then
      SETUP_BUFFER env st.gpu st.txl.color_post st.fbl.effect_fb st.fbl.effect_color_fb
    else
      CLEANUP_BUFFER st.gpu st.txl.color_post st.fbl.effect_fb st.fbl.effect_color_fb
  { st with
    txl := { st.txl with color_post := r.tex }
    fbl := { st.fbl with effect_fb := r.fb, effect_color_fb := r.fb_color }
    gpu := r.gpu }

/-- Lines 203-220: the max-depth pyramid texture at half resolution and the scratch
framebuffer. `half_res_hiz` is the constant `true`. -/
def provision_maxz (env : InitEnv) (st : EEVEE_Data) : EEVEE_Data :=
  let half_res_hiz := true
  let hiz_mip_offset : Int := if half_res_hiz then 1 else 0
  let div : Int := if half_res_hiz then 2 else 1
  let size0 := max_ii (c_div env.viewport_size.1 div) 1
  let size1 := max_ii (c_div env.viewport_size.2 div) 1
  let r := if env.gpu_is_intel then
      DRW_texture_ensure_2D st.gpu st.txl.maxzbuffer size0 size1 GPUTextureFormat.GPU_R32F false true
    else
      DRW_texture_ensure_2D st.gpu st.txl.maxzbuffer size0 size1
        GPUTextureFormat.GPU_DEPTH_COMPONENT24 false true
  let fb := if st.fbl.downsample_fb = none then
      GPU_framebuffer_create r.2
    else
      (st.fbl.downsample_fb, r.2)
  { st with
    common_data := { st.common_data with hiz_mip_offset := hiz_mip_offset }
    txl := { st.txl with maxzbuffer := r.1 }
    fbl := { st.fbl with downsample_fb := fb.1 }
    gpu := fb.2 }

/-- The expression `viewport_size / (mip_size * powf(2.0f, i))` of lines 228-229 on one
axis: the viewport size `v` is a float, the `int` mip size `m` is converted to float
for the product, and the quotient is a float. -/
def mip_ratio_axis (v m : Int) (i : Nat) : F32 :=
  F32.div (F32.of_int v) (F32.mul (F32.of_int m) (powf_two i))

/-- One iteration of the loop of lines 225-230: the entry `i` of the table. -/
def mip_ratio_step (env : InitEnv) (color : Option GPUTexture)
    (table : Fin 10 → F32 × F32) (i : Fin 10) : Fin 10 → F32 × F32 :=
  let mip_size := env.GPU_texture_get_mipmap_size color i.val
  Function.update table i
    (mip_ratio_axis env.viewport_size.1 mip_size.1 i.val,
     mip_ratio_axis env.viewport_size.2 mip_size.2 i.val)

/-- Lines 222-230: the mipmap texel alignment table, `i` running from 0 to 9. -/
def provision_mip_ratio (env : InitEnv) (st : EEVEE_Data) : EEVEE_Data :=
  { st with
    common_data := { st.common_data with
      mip_ratio := (List.finRange 10).foldl (mip_ratio_step env st.txl.color)
        st.common_data.mip_ratio } }

/-- Lines 235-243: the normal buffer, borrowed from the texture pool and attached to
`main_fb`. -/
def provision_normal (F : EffectFlags) (env : InitEnv) (st : EEVEE_Data) : EEVEE_Data :=
  if has_flag st.effects.enabled_effects F.EFFECT_NORMAL_BUFFER then
    { st with
      effects := { st.effects with ssr_normal_input := env.pool_ssr_normal_input }
      calls := st.calls ++
        [DRWCall.framebuffer_texture_attach st.fbl.main_fb env.pool_ssr_normal_input] }
  else
    { st with effects := { st.effects with ssr_normal_input := none } }

/-- Lines 248-262: the velocity buffer, borrowed from the texture pool, and its
framebuffer. -/
def provision_velocity (F : EffectFlags) (env : InitEnv) (st : EEVEE_Data) : EEVEE_Data :=
  if has_flag st.effects.enabled_effects F.EFFECT_VELOCITY_BUFFER then
    let r := GPU_framebuffer_ensure_config st.gpu st.fbl.velocity_resolve_fb
    { st with
      effects := { st.effects with velocity_tx := env.pool_velocity_tx }
      fbl := { st.fbl with velocity_resolve_fb := r.1 }
      gpu := r.2 }
  else
    { st with effects := { st.effects with velocity_tx := none } }

/-- Lines 267-278: the depth double buffer. -/
def provision_depth_double (F : EffectFlags) (env : InitEnv) (st : EEVEE_Data) : EEVEE_Data :=
  if has_flag st.effects.enabled_effects F.EFFECT_DEPTH_DOUBLE_BUFFER then
    let r1 := DRW_texture_ensure_fullscreen_2D env st.gpu st.txl.depth_double_buffer
      GPUTextureFormat.GPU_DEPTH24_STENCIL8 false false
    let r2 := GPU_framebuffer_ensure_config r1.2 st.fbl.double_buffer_depth_fb
    { st with
      txl := { st.txl with depth_double_buffer := r1.1 }
      fbl := { st.fbl with double_buffer_depth_fb := r2.1 }
      gpu := r2.2 }
  else
    { st with
      txl := { st.txl with depth_double_buffer := DRW_TEXTURE_FREE_SAFE st.txl.depth_double_buffer }
      fbl := { st.fbl with
        double_buffer_depth_fb := GPU_FRAMEBUFFER_FREE_SAFE st.fbl.double_buffer_depth_fb } }

/-- Lines 283-288: the colour double buffer. -/
def provision_double (F : EffectFlags) (env : InitEnv) (st : EEVEE_Data) : EEVEE_Data :=
  let r := if has_flag st.effects.enabled_effects F.EFFECT_DOUBLE_BUFFER then
      SETUP_BUFFER env st.gpu st.txl.color_double_buffer st.fbl.double_buffer_fb
        st.fbl.double_buffer_color_fb
    else
      CLEANUP_BUFFER st.gpu st.txl.color_double_buffer st.fbl.double_buffer_fb
        st.fbl.double_buffer_color_fb
  { st with
    txl := { st.txl with color_double_buffer := r.tex }
    fbl := { st.fbl with double_buffer_fb := r.fb, double_buffer_color_fb := r.fb_color }
    gpu := r.gpu }

/-- Lines 290-295: the TAA history buffer. -/
def provision_taa (F : EffectFlags) (env : InitEnv) (st : EEVEE_Data) : EEVEE_Data :=
  let r := if has_flag st.effects.enabled_effects (F.EFFECT_TAA ||| F.EFFECT_TAA_REPROJECT) then
      SETUP_BUFFER env st.gpu st.txl.taa_history st.fbl.taa_history_fb st.fbl.taa_history_color_fb
    else
      CLEANUP_BUFFER st.gpu st.txl.taa_history st.fbl.taa_history_fb st.fbl.taa_history_color_fb
  { st with
    txl := { st.txl with taa_history := r.tex }
    fbl := { st.fbl with taa_history_fb := r.fb, taa_history_color_fb := r.fb_color }
    gpu := r.gpu }

/-- Lines 190-295 of `EEVEE_effects_init`: the buffer provisioning, driven by
`effects->enabled_effects`. -/
def effects_provision (F : EffectFlags) (env : InitEnv) (st : EEVEE_Data) : EEVEE_Data :=
  let st := provision_color_post F env st
  let st := provision_maxz env st
  let st := provision_mip_ratio env st
  let st := provision_normal F env st
  let st := provision_velocity F env st
  let st := provision_depth_double F env st
  let st := provision_double F env st
  provision_taa F env st

/-- The function `EEVEE_effects_init`. -/
def EEVEE_effects_init (F : EffectFlags) (env : InitEnv) (vedata : EEVEE_DataEntry) :
    EEVEE_Data :=
  let st := effects_ensure vedata
  let st := { st with effects := effects_resolve F env st.effects }
  effects_provision F env st

/-- The spec-level `apply(E, size)`: the provisioning run with `E` as the enabled
effects. -/
def apply_effect_set (F : EffectFlags) (env : InitEnv) (E : Nat) (st : EEVEE_Data) :
    EEVEE_Data :=
  effects_provision F env { st with effects := { st.effects with enabled_effects := E } }

/-- The state seen by the next call of `EEVEE_effects_init`: `stl->effects` is
allocated. -/
def EEVEE_DataOf.reenter (st : EEVEE_Data) : EEVEE_DataEntry :=
  { txl := st.txl, fbl := st.fbl, effects := some st.effects, g_data := st.g_data,
    common_data := st.common_data, e_data := st.e_data, gpu := st.gpu, calls := st.calls }

/-! ## Recursive downsample and the HiZ pyramid -/

/-- The statement `DRW_draw_pass(pass)` and the other logged calls: append to the
log. -/
def issue (st : EEVEE_Data) (c : DRWCall) : EEVEE_Data :=
  { st with calls := st.calls ++ [c] }

/-- The size of the next mip level: half, rounded down, at least 1 on each axis. -/
def next_mip_dim (dim : Int × Int) : Int × Int :=
  (max_ii (dim.1 / 2) 1, max_ii (dim.2 / 2) 1)

/-- Modelled from the spec: the loop of `GPU_framebuffer_recursive_downsample`, which
is defined in the GPU module. `n` is the number of levels still allowed by
`max_lvl`, `L` the level to build and `dim` the size of level `L - 1`. The loop stops
when `L` exceeds `max_lvl` or the mip count of the texture; otherwise the framebuffer
is rebound to the size of level `L` and the callback runs for `L`. -/
def recursive_downsample_loop (mip_count : Nat) (callback : EEVEE_Data → Nat → EEVEE_Data) :
    Nat → Nat → Int × Int → EEVEE_Data → EEVEE_Data
  | 0, _, _, st => st
  | n + 1, L, dim, st =>
    if mip_count < L then st
    else
      let dim := next_mip_dim dim
      let st := issue st (DRWCall.mip_bind L dim.1 dim.2)
      recursive_downsample_loop mip_count callback n (L + 1) dim (callback st L)

/-- Modelled from the spec: `GPU_framebuffer_recursive_downsample`, defined in the GPU
module. `tex` is the texture attached to the framebuffer, `mip_count` the mip count
reported for a texture; levels `1..max_lvl` are driven from the size of level 0, and
nothing is driven when no texture is attached. -/
def GPU_framebuffer_recursive_downsample (mip_count : GPUTexture → Nat)
    (tex : Option GPUTexture) (max_lvl : Int) (callback : EEVEE_Data → Nat → EEVEE_Data)
    (st : EEVEE_Data) : EEVEE_Data :=
  match tex with
  | none => st
  | some t => recursive_downsample_loop (mip_count t) callback max_lvl.toNat 1 (t.w, t.h) st

/-- The callback `max_downsample_cb`. -/
def max_downsample_cb (st : EEVEE_Data) (_level : Nat) : EEVEE_Data :=
  issue st (DRWCall.draw_pass Pass.maxz_downlevel_ps)

/-- The callback `simple_downsample_cb`. -/
def simple_downsample_cb (st : EEVEE_Data) (_level : Nat) : EEVEE_Data :=
  issue st (DRWCall.draw_pass Pass.color_downsample_ps)

/-- The function `EEVEE_create_minmax_buffer`. `get_mipmap_size` and `mip_count` are
the queries of the GPU module. -/
def EEVEE_create_minmax_buffer (get_mipmap_size : Option GPUTexture → Nat → Int × Int)
    (mip_count : GPUTexture → Nat) (st : EEVEE_Data) (depth_src : Option GPUTexture)
    (layer : Int) : EEVEE_Data :=
  let st := { st with e_data := { st.e_data with depth_src := depth_src, depth_src_layer := layer } }
  let depth_size := get_mipmap_size depth_src 0
  let minmax_size := get_mipmap_size st.txl.maxzbuffer 0
  let is_full_res_minmaxz := minmax_size.1 == depth_size.1 && minmax_size.2 == depth_size.2
  let st := issue st (DRWCall.framebuffer_texture_attach st.fbl.downsample_fb st.txl.maxzbuffer)
  let st := issue st (DRWCall.framebuffer_bind st.fbl.downsample_fb)
  let st :=
    if layer ≥ 0 then
      if is_full_res_minmaxz then issue st (DRWCall.draw_pass Pass.maxz_copydepth_layer_ps)
      else issue st (DRWCall.draw_pass Pass.maxz_downdepth_layer_ps)
    else
      if is_full_res_minmaxz then issue st (DRWCall.draw_pass Pass.maxz_copydepth_ps)
      else issue st (DRWCall.draw_pass Pass.maxz_downdepth_ps)
  let st := GPU_framebuffer_recursive_downsample mip_count st.txl.maxzbuffer 8 max_downsample_cb st
  let st := issue st (DRWCall.framebuffer_texture_detach st.fbl.downsample_fb st.txl.maxzbuffer)
  issue st (DRWCall.framebuffer_bind st.fbl.main_fb)

/-- The function `EEVEE_downsample_buffer`. -/
def EEVEE_downsample_buffer (mip_count : GPUTexture → Nat) (st : EEVEE_Data)
    (texture_src : Option GPUTexture) (level : Int) : EEVEE_Data :=
  let st := { st with e_data := { st.e_data with color_src := texture_src } }
  let st := issue st (DRWCall.framebuffer_texture_attach st.fbl.downsample_fb texture_src)
  let st := GPU_framebuffer_recursive_downsample mip_count texture_src level simple_downsample_cb st
  issue st (DRWCall.framebuffer_texture_detach st.fbl.downsample_fb texture_src)

/-- The size of mip level `L` of a texture as the recursive downsample binds it:
level 0 is the texture size and each level is `next_mip_dim` of the one above. -/
def mip_dim (t : GPUTexture) : Nat → Int × Int
  | 0 => (t.w, t.h)
  | L + 1 => next_mip_dim (mip_dim t L)

/-- The calls issued for level `L` of texture `t` when the callback draws `p`. -/
def level_calls (t : GPUTexture) (p : Pass) (L : Nat) : List DRWCall :=
  [DRWCall.mip_bind L (mip_dim t L).1 (mip_dim t L).2, DRWCall.draw_pass p]

/-- The four passes that fill the top level of the max-depth pyramid. -/
def Pass.is_top_level : Pass → Bool
  | Pass.maxz_downdepth_ps => true
  | Pass.maxz_downdepth_layer_ps => true
  | Pass.maxz_copydepth_ps => true
  | Pass.maxz_copydepth_layer_ps => true
  | _ => false

/-- The direct-copy passes (`maxz_copydepth`). -/
def Pass.is_copydepth : Pass → Bool
  | Pass.maxz_copydepth_ps => true
  | Pass.maxz_copydepth_layer_ps => true
  | _ => false

/-- The reduce passes (`maxz_downdepth`). -/
def Pass.is_downdepth : Pass → Bool
  | Pass.maxz_downdepth_ps => true
  | Pass.maxz_downdepth_layer_ps => true
  | _ => false

/-- The layered variants of the top-level passes. -/
def Pass.is_layered : Pass → Bool
  | Pass.maxz_downdepth_layer_ps => true
  | Pass.maxz_copydepth_layer_ps => true
  | _ => false

/-- The top-level passes among a list of calls, in order. -/
def top_level_draws (calls : List DRWCall) : List Pass :=
  calls.filterMap (fun c =>
    match c with
    | DRWCall.draw_pass p => if p.is_top_level then some p else none
    | _ => none)

/-! ## EEVEE_draw_effects -/

/-- What `EEVEE_draw_effects` reads from the draw manager: whether an image render is
running and the `DRW_MAT_PERS` and `DRW_MAT_PERSINV` viewport matrices. -/
structure DrawEnv where
  is_image_render : Bool
  persmat : Mat4
  persinv : Mat4

/-- The four effect modules of the post process stack, defined in other files. -/
structure EffectStages where
  motion_blur_draw : EEVEE_Data → EEVEE_Data
  depth_of_field_draw : EEVEE_Data → EEVEE_Data
  temporal_sampling_draw : EEVEE_Data → EEVEE_Data
  bloom_draw : EEVEE_Data → EEVEE_Data

/-- Modelled from the spec: the `SWAP_DOUBLE_BUFFERS` macro is defined in
`eevee_private.h`. When the swap is still pending the colour buffer and the double
buffer, each a texture with its two framebuffers, trade places, and the pending flag
is cleared so that the swap happens once per frame. -/
def SWAP_DOUBLE_BUFFERS (st : EEVEE_Data) : EEVEE_Data :=
  if st.effects.swap_double_buffer then
    { st with
      txl := { st.txl with color := st.txl.color_double_buffer, color_double_buffer := st.txl.color }
      fbl := { st.fbl with
        main_fb := st.fbl.double_buffer_fb, double_buffer_fb := st.fbl.main_fb,
        main_color_fb := st.fbl.double_buffer_color_fb,
        double_buffer_color_fb := st.fbl.main_color_fb }
      effects := { st.effects with swap_double_buffer := false } }
  else st

/-- Lines 515-529 of `EEVEE_draw_effects`: velocity resolve and initialisation of the
ping-pong pointers. -/
def draw_effects_begin (F : EffectFlags) (env : DrawEnv) (st : EEVEE_Data) : EEVEE_Data :=
  let st :=
    if has_flag st.effects.enabled_effects F.EFFECT_VELOCITY_BUFFER then
      let st := { st with effects := { st.effects with velocity_curr_persinv := env.persinv } }
      let st := issue st (DRWCall.framebuffer_bind st.fbl.velocity_resolve_fb)
      issue st (DRWCall.draw_pass Pass.velocity_resolve)
    else st
  let st := { st with effects := { st.effects with velocity_past_persmat := env.persmat } }
  let st := { st with effects := { st.effects with
    swap_double_buffer := has_flag st.effects.enabled_effects F.EFFECT_DOUBLE_BUFFER } }
  let st := { st with effects := { st.effects with source_buffer := st.txl.color } }
  { st with effects := { st.effects with target_buffer := st.fbl.effect_color_fb } }

/-- Lines 515-535 of `EEVEE_draw_effects`: the state after the post process stack
(order matters). -/
def draw_effects_stack (F : EffectFlags) (S : EffectStages) (env : DrawEnv) (st : EEVEE_Data) :
    EEVEE_Data :=
  let st := draw_effects_begin F env st
  let st := S.motion_blur_draw st
  let st := S.depth_of_field_draw st
  let st := S.temporal_sampling_draw st
  S.bloom_draw st

/-- Lines 537-565 of `EEVEE_draw_effects`: the final texture and framebuffer, the
pending double buffer swap, the redraw request and the frame state for the next
frame. -/
def draw_effects_finish (F : EffectFlags) (env : DrawEnv) (st : EEVEE_Data) : EEVEE_Data :=
  let st := { st with effects := { st.effects with final_tx := st.effects.source_buffer } }
  let st := { st with effects := { st.effects with
    final_fb := if st.effects.target_buffer ≠ st.fbl.main_color_fb then st.fbl.main_fb
      else st.fbl.effect_fb } }
  let st :=
    if has_flag st.effects.enabled_effects F.EFFECT_TAA
        && decide (st.effects.source_buffer = st.txl.taa_history) then
      { st with effects := { st.effects with final_fb := st.fbl.taa_history_fb } }
    else st
  let st := SWAP_DOUBLE_BUFFERS st
  let st :=
    if !st.g_data.valid_double_buffer
        && has_flag st.effects.enabled_effects F.EFFECT_DOUBLE_BUFFER
        && !env.is_image_render then
      issue st DRWCall.viewport_request_redraw
    else st
  let st := { st with effects := { st.effects with prev_persmat := env.persmat } }
  if env.is_image_render then
    { st with g_data := { st.g_data with
      valid_double_buffer := st.txl.color_double_buffer.isSome,
      valid_taa_history := st.txl.taa_history.isSome } }
  else st

/-- The function `EEVEE_draw_effects`. -/
def EEVEE_draw_effects (F : EffectFlags) (S : EffectStages) (env : DrawEnv) (st : EEVEE_Data) :
    EEVEE_Data :=
  draw_effects_finish F env (draw_effects_stack F S env st)

/-! ## Sample data -/

/-- A sample assignment of the flag words, each a distinct bit. -/
def sample_flags : EffectFlags :=
  { EFFECT_VELOCITY_BUFFER := 4096, EFFECT_NORMAL_BUFFER := 1024, EFFECT_POST_BUFFER := 512,
    EFFECT_DEPTH_DOUBLE_BUFFER := 16384, EFFECT_DOUBLE_BUFFER := 32, EFFECT_TAA := 256,
    EFFECT_TAA_REPROJECT := 8192, SCE_PASS_NORMAL := 8 }

/-- A sample frame environment: a 1920x1080 interactive viewport, no effect module
enabled, mip sizes by repeated halving of 960x540. -/
def sample_env : InitEnv :=
  { debug_value := 0, is_image_render := false, passflag := 0, viewport_size := (1920, 1080),
    gpu_is_intel := false, motion_blur_init := 0, bloom_init := 0, depth_of_field_init := 0,
    temporal_sampling_init := 0, occlusion_init := 0, subsurface_init := 0,
    screen_raytrace_init := 0, volumes_init := 0, pool_ssr_normal_input := none,
    pool_velocity_tx := none,
    GPU_texture_get_mipmap_size := fun _ i => (max_ii (960 / 2 ^ i) 1, max_ii (540 / 2 ^ i) 1) }

/-- A sample state: nothing allocated yet. -/
def sample_data : EEVEE_Data :=
  { txl := ⟨none, none, none, none, none, none⟩,
    fbl := ⟨none, none, none, none, none, none, none, none, none, none, none⟩,
    effects := EEVEE_EffectsInfo.calloc,
    g_data := ⟨false, false⟩,
    common_data := ⟨0, fun _ => (F32.fin 0, F32.fin 0)⟩,
    e_data := ⟨none, none, 0⟩,
    gpu := ⟨1, 1⟩,
    calls := [] }

/-- Modelled from the spec: the `SWAP_BUFFERS` macro is defined in `eevee_private.h`.
After a stage has written into the target, the pending double buffer swap is done and
the source and target trade places: the written buffer becomes the source and the
vacated one the next target. -/
def SWAP_BUFFERS (st : EEVEE_Data) : EEVEE_Data :=
  if st.effects.target_buffer = st.fbl.effect_color_fb then
    let st := SWAP_DOUBLE_BUFFERS st
    { st with effects := { st.effects with
      source_buffer := st.txl.color_post, target_buffer := st.fbl.main_color_fb } }
  else
    let st := SWAP_DOUBLE_BUFFERS st
    { st with effects := { st.effects with
      source_buffer := st.txl.color, target_buffer := st.fbl.effect_color_fb } }

/-- Modelled from the spec: an effect stage governed by the flag word `bit`, the stages
being defined in other files. With the bit clear the stage is a pass-through; with the
bit set it binds the target, draws and ping-pongs the buffers. -/
def ping_pong_stage (bit : Nat) (st : EEVEE_Data) : EEVEE_Data :=
  if has_flag st.effects.enabled_effects bit then
    SWAP_BUFFERS (issue st (DRWCall.framebuffer_bind st.effects.target_buffer))
  else st

/-- A sample post process stack of four ping-pong stages on the flag words 1, 4, 256
(`EFFECT_TAA` of `sample_flags`) and 2. -/
def sample_stages : EffectStages :=
  { motion_blur_draw := ping_pong_stage 1, depth_of_field_draw := ping_pong_stage 4,
    temporal_sampling_draw := ping_pong_stage 256, bloom_draw := ping_pong_stage 2 }

/-- A sample draw environment: interactive viewport. -/
def sample_draw_env : DrawEnv :=
  { is_image_render := false, persmat := List.replicate 16 1, persinv := List.replicate 16 2 }

/-- A sample state at draw time with enabled effects `E`: every texture and framebuffer
allocated under distinct names, the history not yet valid. -/
def sample_frame (E : Nat) : EEVEE_Data :=
  { txl := ⟨some ⟨1, 1920, 1080, GPUTextureFormat.GPU_RGBA16F, true, true⟩,
      some ⟨2, 1920, 1080, GPUTextureFormat.GPU_RGBA16F, true, true⟩,
      some ⟨3, 960, 540, GPUTextureFormat.GPU_DEPTH_COMPONENT24, false, true⟩,
      some ⟨4, 1920, 1080, GPUTextureFormat.GPU_DEPTH24_STENCIL8, false, false⟩,
      some ⟨5, 1920, 1080, GPUTextureFormat.GPU_RGBA16F, true, true⟩,
      some ⟨6, 1920, 1080, GPUTextureFormat.GPU_RGBA16F, true, true⟩⟩,
    fbl := ⟨some ⟨1⟩, some ⟨2⟩, some ⟨3⟩, some ⟨4⟩, some ⟨5⟩, some ⟨6⟩, some ⟨7⟩, some ⟨8⟩,
      some ⟨9⟩, some ⟨10⟩, some ⟨11⟩⟩,
    effects := { EEVEE_EffectsInfo.calloc with enabled_effects := E },
    g_data := ⟨false, false⟩,
    common_data := ⟨1, fun _ => (F32.fin 1, F32.fin 1)⟩,
    e_data := ⟨none, none, 0⟩,
    gpu := ⟨7, 12⟩,
    calls := [] }

/-- A sample mip size query that reads its texture: level `i` is the texture size
halved `i` times, rounded down and at least 1; a missing texture has no size. -/
def sample_mipmap_size (tex : Option GPUTexture) (i : Nat) : Int × Int :=
  match tex with
  | some t => mip_dim t i
  | none => (0, 0)

/-- The sample frame environment (a 1920x1080 interactive viewport) with the mip size
query that reads its texture. -/
def sample_env_query : InitEnv :=
  { sample_env with GPU_texture_get_mipmap_size := sample_mipmap_size }

/-- A sample entry state whose colour buffer is viewport-sized (1920x1080). -/
def sample_entry_fullres : EEVEE_DataEntry := (sample_frame 0).reenter

/-- A sample entry state whose colour buffer is half the viewport size (960x540), so
that its mip chain is 960x540, 480x270, 240x135, 120x67 and so on. -/
def sample_entry_halfres : EEVEE_DataEntry :=
  { sample_entry_fullres with
    txl := { sample_entry_fullres.txl with
      color := some ⟨1, 960, 540, GPUTextureFormat.GPU_RGBA16F, true, true⟩ } }

/-! ## The effect-gated persistent buffers -/

/-- The persistent buffers that `EEVEE_effects_init` sets up or cleans up according to
a test on the enabled effects. -/
inductive GatedBuffer where
  | color_post
  | depth_double_buffer
  | color_double_buffer
  | taa_history
deriving DecidableEq, Repr

/-- The flag word tested for a buffer (lines 193, 267, 283 and 290). -/
def GatedBuffer.flags (b : GatedBuffer) (F : EffectFlags) : Nat :=
  match b with
  | GatedBuffer.color_post => F.EFFECT_POST_BUFFER
  | GatedBuffer.depth_double_buffer => F.EFFECT_DEPTH_DOUBLE_BUFFER
  | GatedBuffer.color_double_buffer => F.EFFECT_DOUBLE_BUFFER
  | GatedBuffer.taa_history => F.EFFECT_TAA ||| F.EFFECT_TAA_REPROJECT

/-- The test `(enabled_effects & flags) != 0` that governs a buffer. -/
def GatedBuffer.gate (b : GatedBuffer) (F : EffectFlags) (E : Nat) : Bool :=
  has_flag E (b.flags F)

/-- The texture of a buffer. -/
def GatedBuffer.texture (b : GatedBuffer) (txl : EEVEE_TextureList) : Option GPUTexture :=
  match b with
  | GatedBuffer.color_post => txl.color_post
  | GatedBuffer.depth_double_buffer => txl.depth_double_buffer
  | GatedBuffer.color_double_buffer => txl.color_double_buffer
  | GatedBuffer.taa_history => txl.taa_history

/-- The framebuffers of a buffer. -/
def GatedBuffer.framebuffers (b : GatedBuffer) (fbl : EEVEE_FramebufferList) :
    List (Option GPUFrameBuffer) :=
  match b with
  | GatedBuffer.color_post => [fbl.effect_fb, fbl.effect_color_fb]
  | GatedBuffer.depth_double_buffer => [fbl.double_buffer_depth_fb]
  | GatedBuffer.color_double_buffer => [fbl.double_buffer_fb, fbl.double_buffer_color_fb]
  | GatedBuffer.taa_history => [fbl.taa_history_fb, fbl.taa_history_color_fb]

/-- A buffer is present: its texture and all its framebuffers are non-null. -/
def GatedBuffer.present (b : GatedBuffer) (st : EEVEE_Data) : Bool :=
  (b.texture st.txl).isSome && (b.framebuffers st.fbl).all Option.isSome

/-- A buffer is freed: its texture and all its framebuffers are null. -/
def GatedBuffer.freed (b : GatedBuffer) (st : EEVEE_Data) : Bool :=
  (b.texture st.txl).isNone && (b.framebuffers st.fbl).all Option.isNone

/-- The state of the owned buffers after a provisioning with enabled effects `E`:
every gated buffer is present or freed according to its gate, the pyramid texture and
the scratch framebuffer exist, and so does the velocity framebuffer when the velocity
buffer is enabled. -/
def Settled (F : EffectFlags) (E : Nat) (txl : EEVEE_TextureList)
    (fbl : EEVEE_FramebufferList) : Prop :=
  (∀ b : GatedBuffer,
    ((b.texture txl).isSome && (b.framebuffers fbl).all Option.isSome) = b.gate F E
      ∧ ((b.texture txl).isNone && (b.framebuffers fbl).all Option.isNone) = !b.gate F E)
    ∧ txl.maxzbuffer.isSome = true
    ∧ fbl.downsample_fb.isSome = true
    ∧ (has_flag E F.EFFECT_VELOCITY_BUFFER = true → fbl.velocity_resolve_fb.isSome = true)

/-- A step that neither allocates nor frees on a settled state. -/
def KeepsSettled (F : EffectFlags) (f : EEVEE_Data → EEVEE_Data) : Prop :=
  ∀ st : EEVEE_Data, Settled F st.effects.enabled_effects st.txl st.fbl →
    (f st).txl = st.txl ∧ (f st).fbl = st.fbl ∧ (f st).gpu = st.gpu
      ∧ (f st).effects.enabled_effects = st.effects.enabled_effects

/-! ## Basic facts about the helpers -/

theorem has_flag_iff (a b : Nat) : has_flag a b = true ↔ a &&& b ≠ 0 := by
  simp [has_flag]

theorem has_flag_false_iff (a b : Nat) : has_flag a b = false ↔ a &&& b = 0 := by
  simp [has_flag]

theorem ensure_2D_isSome (gpu : GPUState) (tex : Option GPUTexture) (w h : Int)
    (format : GPUTextureFormat) (filter mipmap : Bool) :
    (DRW_texture_ensure_2D gpu tex w h format filter mipmap).1.isSome = true := by
  cases tex <;> rfl

theorem ensure_2D_of_isSome (gpu : GPUState) (tex : Option GPUTexture) (w h : Int)
    (format : GPUTextureFormat) (filter mipmap : Bool) (hs : tex.isSome = true) :
    DRW_texture_ensure_2D gpu tex w h format filter mipmap = (tex, gpu) := by
  cases tex
  · simp at hs
  · rfl

theorem ensure_config_isSome (gpu : GPUState) (fb : Option GPUFrameBuffer) :
    (GPU_framebuffer_ensure_config gpu fb).1.isSome = true := by
  cases fb <;> rfl

theorem ensure_config_of_isSome (gpu : GPUState) (fb : Option GPUFrameBuffer)
    (hs : fb.isSome = true) : GPU_framebuffer_ensure_config gpu fb = (fb, gpu) := by
  cases fb
  · simp at hs
  · rfl

theorem setup_buffer_present (env : InitEnv) (gpu : GPUState) (tex : Option GPUTexture)
    (fb fb_color : Option GPUFrameBuffer) :
    (SETUP_BUFFER env gpu tex fb fb_color).tex.isSome = true
      ∧ (SETUP_BUFFER env gpu tex fb fb_color).fb.isSome = true
      ∧ (SETUP_BUFFER env gpu tex fb fb_color).fb_color.isSome = true := by
  refine ⟨?_, ?_, ?_⟩
  · exact ensure_2D_isSome _ _ _ _ _ _ _
  · exact ensure_config_isSome _ _
  · exact ensure_config_isSome _ _

theorem setup_buffer_of_present (env : InitEnv) (gpu : GPUState) (tex : Option GPUTexture)
    (fb fb_color : Option GPUFrameBuffer) (h1 : tex.isSome = true) (h2 : fb.isSome = true)
    (h3 : fb_color.isSome = true) :
    SETUP_BUFFER env gpu tex fb fb_color = ⟨tex, fb, fb_color, gpu⟩ := by
  simp [SETUP_BUFFER, DRW_texture_ensure_fullscreen_2D, ensure_2D_of_isSome, ensure_config_of_isSome,
    h1, h2, h3]

theorem cleanup_buffer_eq (gpu : GPUState) (tex : Option GPUTexture)
    (fb fb_color : Option GPUFrameBuffer) :
    CLEANUP_BUFFER gpu tex fb fb_color = ⟨none, none, none, gpu⟩ := rfl

/-! ## Frame rules of the provisioning steps -/

@[simp] theorem color_post_txl (F : EffectFlags) (env : InitEnv) (st : EEVEE_Data) :
    (provision_color_post F env st).txl = { st.txl with color_post :=
      (if has_flag st.effects.enabled_effects F.EFFECT_POST_BUFFER then
        SETUP_BUFFER env st.gpu st.txl.color_post st.fbl.effect_fb st.fbl.effect_color_fb
      else
        CLEANUP_BUFFER st.gpu st.txl.color_post st.fbl.effect_fb st.fbl.effect_color_fb).tex } :=
  rfl

@[simp] theorem color_post_fbl (F : EffectFlags) (env : InitEnv) (st : EEVEE_Data) :
    (provision_color_post F env st).fbl = { st.fbl with
      effect_fb :=
        (if has_flag st.effects.enabled_effects F.EFFECT_POST_BUFFER then
          SETUP_BUFFER env st.gpu st.txl.color_post st.fbl.effect_fb st.fbl.effect_color_fb
        else
          CLEANUP_BUFFER st.gpu st.txl.color_post st.fbl.effect_fb st.fbl.effect_color_fb).fb
      effect_color_fb :=
        (if has_flag st.effects.enabled_effects F.EFFECT_POST_BUFFER then
          SETUP_BUFFER env st.gpu st.txl.color_post st.fbl.effect_fb st.fbl.effect_color_fb
        else
          CLEANUP_BUFFER st.gpu st.txl.color_post st.fbl.effect_fb
            st.fbl.effect_color_fb).fb_color } :=
  rfl

@[simp] theorem color_post_effects (F : EffectFlags) (env : InitEnv) (st : EEVEE_Data) :
    (provision_color_post F env st).effects = st.effects := rfl

@[simp] theorem maxz_txl (env : InitEnv) (st : EEVEE_Data) :
    (provision_maxz env st).txl = { st.txl with maxzbuffer :=
      (DRW_texture_ensure_2D st.gpu st.txl.maxzbuffer
        (max_ii (c_div env.viewport_size.1 2) 1) (max_ii (c_div env.viewport_size.2 2) 1)
        (if env.gpu_is_intel then GPUTextureFormat.GPU_R32F
          else GPUTextureFormat.GPU_DEPTH_COMPONENT24) false true).1 } := by
  unfold provision_maxz
  cases env.gpu_is_intel <;> rfl

@[simp] theorem maxz_fbl (env : InitEnv) (st : EEVEE_Data) :
    (provision_maxz env st).fbl = { st.fbl with downsample_fb :=
      (match st.fbl.downsample_fb with
        | none => some ⟨(DRW_texture_ensure_2D st.gpu st.txl.maxzbuffer
            (max_ii (c_div env.viewport_size.1 2) 1) (max_ii (c_div env.viewport_size.2 2) 1)
            (if env.gpu_is_intel then GPUTextureFormat.GPU_R32F
              else GPUTextureFormat.GPU_DEPTH_COMPONENT24) false true).2.next_fb⟩
        | some f => some f) } := by
  unfold provision_maxz
  cases env.gpu_is_intel <;> cases h : st.fbl.downsample_fb <;> simp [GPU_framebuffer_create]

@[simp] theorem maxz_effects (env : InitEnv) (st : EEVEE_Data) :
    (provision_maxz env st).effects = st.effects := rfl

@[simp] theorem mip_ratio_txl (env : InitEnv) (st : EEVEE_Data) :
    (provision_mip_ratio env st).txl = st.txl := rfl

@[simp] theorem mip_ratio_fbl (env : InitEnv) (st : EEVEE_Data) :
    (provision_mip_ratio env st).fbl = st.fbl := rfl

@[simp] theorem mip_ratio_effects (env : InitEnv) (st : EEVEE_Data) :
    (provision_mip_ratio env st).effects = st.effects := rfl

@[simp] theorem mip_ratio_gpu (env : InitEnv) (st : EEVEE_Data) :
    (provision_mip_ratio env st).gpu = st.gpu := rfl

@[simp] theorem normal_txl (F : EffectFlags) (env : InitEnv) (st : EEVEE_Data) :
    (provision_normal F env st).txl = st.txl := by
  unfold provision_normal; split_ifs <;> rfl

@[simp] theorem normal_fbl (F : EffectFlags) (env : InitEnv) (st : EEVEE_Data) :
    (provision_normal F env st).fbl = st.fbl := by
  unfold provision_normal; split_ifs <;> rfl

@[simp] theorem normal_gpu (F : EffectFlags) (env : InitEnv) (st : EEVEE_Data) :
    (provision_normal F env st).gpu = st.gpu := by
  unfold provision_normal; split_ifs <;> rfl

@[simp] theorem normal_enabled (F : EffectFlags) (env : InitEnv) (st : EEVEE_Data) :
    (provision_normal F env st).effects.enabled_effects = st.effects.enabled_effects := by
  unfold provision_normal; split_ifs <;> rfl

@[simp] theorem velocity_txl (F : EffectFlags) (env : InitEnv) (st : EEVEE_Data) :
    (provision_velocity F env st).txl = st.txl := by
  unfold provision_velocity; split_ifs <;> rfl

@[simp] theorem velocity_fbl (F : EffectFlags) (env : InitEnv) (st : EEVEE_Data) :
    (provision_velocity F env st).fbl = { st.fbl with velocity_resolve_fb :=
      (if has_flag st.effects.enabled_effects F.EFFECT_VELOCITY_BUFFER then
        (GPU_framebuffer_ensure_config st.gpu st.fbl.velocity_resolve_fb).1
      else st.fbl.velocity_resolve_fb) } := by
  unfold provision_velocity; split_ifs <;> rfl

@[simp] theorem velocity_enabled (F : EffectFlags) (env : InitEnv) (st : EEVEE_Data) :
    (provision_velocity F env st).effects.enabled_effects = st.effects.enabled_effects := by
  unfold provision_velocity; split_ifs <;> rfl

@[simp] theorem depth_double_txl (F : EffectFlags) (env : InitEnv) (st : EEVEE_Data) :
    (provision_depth_double F env st).txl = { st.txl with depth_double_buffer :=
      (if has_flag st.effects.enabled_effects F.EFFECT_DEPTH_DOUBLE_BUFFER then
        (DRW_texture_ensure_fullscreen_2D env st.gpu st.txl.depth_double_buffer
          GPUTextureFormat.GPU_DEPTH24_STENCIL8 false false).1
      else none) } := by
  unfold provision_depth_double; split_ifs <;> rfl

@[simp] theorem depth_double_fbl (F : EffectFlags) (env : InitEnv) (st : EEVEE_Data) :
    (provision_depth_double F env st).fbl = { st.fbl with double_buffer_depth_fb :=
      (if has_flag st.effects.enabled_effects F.EFFECT_DEPTH_DOUBLE_BUFFER then
        (GPU_framebuffer_ensure_config
          (DRW_texture_ensure_fullscreen_2D env st.gpu st.txl.depth_double_buffer
            GPUTextureFormat.GPU_DEPTH24_STENCIL8 false false).2
          st.fbl.double_buffer_depth_fb).1
      else none) } := by
  unfold provision_depth_double; split_ifs <;> rfl

@[simp] theorem depth_double_effects (F : EffectFlags) (env : InitEnv) (st : EEVEE_Data) :
    (provision_depth_double F env st).effects = st.effects := by
  unfold provision_depth_double; split_ifs <;> rfl

@[simp] theorem double_txl (F : EffectFlags) (env : InitEnv) (st : EEVEE_Data) :
    (provision_double F env st).txl = { st.txl with color_double_buffer :=
      (if has_flag st.effects.enabled_effects F.EFFECT_DOUBLE_BUFFER then
        SETUP_BUFFER env st.gpu st.txl.color_double_buffer st.fbl.double_buffer_fb
          st.fbl.double_buffer_color_fb
      else
        CLEANUP_BUFFER st.gpu st.txl.color_double_buffer st.fbl.double_buffer_fb
          st.fbl.double_buffer_color_fb).tex } :=
  rfl

@[simp] theorem double_fbl (F : EffectFlags) (env : InitEnv) (st : EEVEE_Data) :
    (provision_double F env st).fbl = { st.fbl with
      double_buffer_fb :=
        (if has_flag st.effects.enabled_effects F.EFFECT_DOUBLE_BUFFER then
          SETUP_BUFFER env st.gpu st.txl.color_double_buffer st.fbl.double_buffer_fb
            st.fbl.double_buffer_color_fb
        else
          CLEANUP_BUFFER st.gpu st.txl.color_double_buffer st.fbl.double_buffer_fb
            st.fbl.double_buffer_color_fb).fb
      double_buffer_color_fb :=
        (if has_flag st.effects.enabled_effects F.EFFECT_DOUBLE_BUFFER then
          SETUP_BUFFER env st.gpu st.txl.color_double_buffer st.fbl.double_buffer_fb
            st.fbl.double_buffer_color_fb
        else
          CLEANUP_BUFFER st.gpu st.txl.color_double_buffer st.fbl.double_buffer_fb
            st.fbl.double_buffer_color_fb).fb_color } :=
  rfl

@[simp] theorem double_effects (F : EffectFlags) (env : InitEnv) (st : EEVEE_Data) :
    (provision_double F env st).effects = st.effects := rfl

@[simp] theorem taa_txl (F : EffectFlags) (env : InitEnv) (st : EEVEE_Data) :
    (provision_taa F env st).txl = { st.txl with taa_history :=
      (if has_flag st.effects.enabled_effects (F.EFFECT_TAA ||| F.EFFECT_TAA_REPROJECT) then
        SETUP_BUFFER env st.gpu st.txl.taa_history st.fbl.taa_history_fb
          st.fbl.taa_history_color_fb
      else
        CLEANUP_BUFFER st.gpu st.txl.taa_history st.fbl.taa_history_fb
          st.fbl.taa_history_color_fb).tex } :=
  rfl

@[simp] theorem taa_fbl (F : EffectFlags) (env : InitEnv) (st : EEVEE_Data) :
    (provision_taa F env st).fbl = { st.fbl with
      taa_history_fb :=
        (if has_flag st.effects.enabled_effects (F.EFFECT_TAA ||| F.EFFECT_TAA_REPROJECT) then
          SETUP_BUFFER env st.gpu st.txl.taa_history st.fbl.taa_history_fb
            st.fbl.taa_history_color_fb
        else
          CLEANUP_BUFFER st.gpu st.txl.taa_history st.fbl.taa_history_fb
            st.fbl.taa_history_color_fb).fb
      taa_history_color_fb :=
        (if has_flag st.effects.enabled_effects (F.EFFECT_TAA ||| F.EFFECT_TAA_REPROJECT) then
          SETUP_BUFFER env st.gpu st.txl.taa_history st.fbl.taa_history_fb
            st.fbl.taa_history_color_fb
        else
          CLEANUP_BUFFER st.gpu st.txl.taa_history st.fbl.taa_history_fb
            st.fbl.taa_history_color_fb).fb_color } :=
  rfl

@[simp] theorem taa_effects (F : EffectFlags) (env : InitEnv) (st : EEVEE_Data) :
    (provision_taa F env st).effects = st.effects := rfl

theorem provision_enabled (F : EffectFlags) (env : InitEnv) (st : EEVEE_Data) :
    (effects_provision F env st).effects.enabled_effects = st.effects.enabled_effects := by
  simp [effects_provision]

theorem color_post_gpu (F : EffectFlags) (env : InitEnv) (st : EEVEE_Data) :
    (provision_color_post F env st).gpu =
      (if has_flag st.effects.enabled_effects F.EFFECT_POST_BUFFER then
        SETUP_BUFFER env st.gpu st.txl.color_post st.fbl.effect_fb st.fbl.effect_color_fb
      else
        CLEANUP_BUFFER st.gpu st.txl.color_post st.fbl.effect_fb st.fbl.effect_color_fb).gpu :=
  rfl

theorem double_gpu (F : EffectFlags) (env : InitEnv) (st : EEVEE_Data) :
    (provision_double F env st).gpu =
      (if has_flag st.effects.enabled_effects F.EFFECT_DOUBLE_BUFFER then
        SETUP_BUFFER env st.gpu st.txl.color_double_buffer st.fbl.double_buffer_fb
          st.fbl.double_buffer_color_fb
      else
        CLEANUP_BUFFER st.gpu st.txl.color_double_buffer st.fbl.double_buffer_fb
          st.fbl.double_buffer_color_fb).gpu :=
  rfl

theorem taa_gpu (F : EffectFlags) (env : InitEnv) (st : EEVEE_Data) :
    (provision_taa F env st).gpu =
      (if has_flag st.effects.enabled_effects (F.EFFECT_TAA ||| F.EFFECT_TAA_REPROJECT) then
        SETUP_BUFFER env st.gpu st.txl.taa_history st.fbl.taa_history_fb
          st.fbl.taa_history_color_fb
      else
        CLEANUP_BUFFER st.gpu st.txl.taa_history st.fbl.taa_history_fb
          st.fbl.taa_history_color_fb).gpu :=
  rfl

/-- After the provisioning every gated buffer is present or freed according to its
gate, and the unconditional objects exist. -/
theorem provision_settled (F : EffectFlags) (env : InitEnv) (st : EEVEE_Data) :
    Settled F st.effects.enabled_effects (effects_provision F env st).txl
      (effects_provision F env st).fbl := by
  refine ⟨?_, ?_, ?_, ?_⟩
  · intro b
    cases b <;>
      simp only [effects_provision, GatedBuffer.texture, GatedBuffer.framebuffers,
        GatedBuffer.gate, GatedBuffer.flags, taa_txl, taa_fbl, taa_effects, double_txl,
        double_fbl, double_effects, depth_double_txl, depth_double_fbl, depth_double_effects,
        velocity_txl, velocity_fbl, velocity_enabled, normal_txl, normal_fbl, normal_enabled,
        mip_ratio_txl, mip_ratio_fbl, mip_ratio_effects, maxz_txl, maxz_fbl, maxz_effects,
        color_post_txl, color_post_fbl, color_post_effects] <;>
      split_ifs with h <;>
      simp [h, cleanup_buffer_eq, setup_buffer_present, ensure_config_isSome,
        DRW_texture_ensure_fullscreen_2D, ensure_2D_isSome]
  · simp [effects_provision, ensure_2D_isSome]
  · simp only [effects_provision, taa_fbl, double_fbl, depth_double_fbl, velocity_fbl,
      normal_fbl, mip_ratio_fbl, maxz_fbl]
    split <;> rfl
  · intro h
    simp [effects_provision, h, ensure_config_isSome]

theorem resolve_enabled (F : EffectFlags) (env : InitEnv) (effects : EEVEE_EffectsInfo) :
    (effects_resolve F env effects).enabled_effects =
      (if env.debug_value = 9 then F.EFFECT_VELOCITY_BUFFER else 0)
        ||| env.motion_blur_init ||| env.bloom_init ||| env.depth_of_field_init
        ||| env.temporal_sampling_init ||| env.occlusion_init ||| env.subsurface_init
        ||| env.screen_raytrace_init ||| env.volumes_init
        ||| (if env.is_image_render = true ∧ env.passflag &&& F.SCE_PASS_NORMAL ≠ 0
              then F.EFFECT_NORMAL_BUFFER else 0) := by
  unfold effects_resolve
  by_cases h1 : env.is_image_render = true <;>
    by_cases h2 : env.passflag &&& F.SCE_PASS_NORMAL = 0 <;>
    simp [or_enabled, h1, h2]

/-! ## A settled state is left alone -/

theorem color_post_keeps (F : EffectFlags) (env : InitEnv) :
    KeepsSettled F (provision_color_post F env) := by
  intro st hS
  have hb := hS.1 GatedBuffer.color_post
  simp only [GatedBuffer.texture, GatedBuffer.framebuffers, GatedBuffer.gate,
    GatedBuffer.flags, List.all_cons, List.all_nil, Bool.and_true] at hb
  rw [color_post_txl, color_post_fbl, color_post_gpu]
  cases hg : has_flag st.effects.enabled_effects F.EFFECT_POST_BUFFER
  · rw [hg] at hb
    simp at hb
    obtain ⟨-, h1, h2, h3⟩ := hb
    clear hS
    rcases st with ⟨⟨⟩, ⟨⟩, _, _, _, _, _, _⟩
    simp_all [cleanup_buffer_eq]
  · rw [hg] at hb
    simp at hb
    obtain ⟨⟨h1, h2, h3⟩, -⟩ := hb
    simp [setup_buffer_of_present, h1, h2, h3]

theorem maxz_keeps (F : EffectFlags) (env : InitEnv) :
    KeepsSettled F (provision_maxz env) := by
  intro st hS
  obtain ⟨-, h1, h2, -⟩ := hS
  refine ⟨?_, ?_, ?_, rfl⟩
  · simp [ensure_2D_of_isSome, h1]
  · rw [maxz_fbl]
    cases h : st.fbl.downsample_fb
    · simp [h] at h2
    · rcases st with ⟨_, ⟨⟩, _, _, _, _, _, _⟩
      simp_all
  · unfold provision_maxz
    cases h : st.fbl.downsample_fb
    · simp [h] at h2
    · cases env.gpu_is_intel <;> simp [ensure_2D_of_isSome, h1]

theorem velocity_keeps (F : EffectFlags) (env : InitEnv) :
    KeepsSettled F (provision_velocity F env) := by
  intro st hS
  obtain ⟨-, -, -, h⟩ := hS
  refine ⟨by simp, ?_, ?_, by simp⟩
  · rw [velocity_fbl]
    cases hg : has_flag st.effects.enabled_effects F.EFFECT_VELOCITY_BUFFER
    · simp
    · simp [ensure_config_of_isSome, h hg]
  · unfold provision_velocity
    cases hg : has_flag st.effects.enabled_effects F.EFFECT_VELOCITY_BUFFER
    · simp
    · simp [ensure_config_of_isSome, h hg]

theorem depth_double_keeps (F : EffectFlags) (env : InitEnv) :
    KeepsSettled F (provision_depth_double F env) := by
  intro st hS
  have hb := hS.1 GatedBuffer.depth_double_buffer
  simp only [GatedBuffer.texture, GatedBuffer.framebuffers, GatedBuffer.gate,
    GatedBuffer.flags, List.all_cons, List.all_nil, Bool.and_true] at hb
  refine ⟨?_, ?_, ?_, by simp⟩
  · rw [depth_double_txl]
    cases hg : has_flag st.effects.enabled_effects F.EFFECT_DEPTH_DOUBLE_BUFFER
    · rw [hg] at hb
      simp at hb
      obtain ⟨-, h1, h2⟩ := hb
      clear hS
      rcases st with ⟨⟨⟩, ⟨⟩, _, _, _, _, _, _⟩
      simp_all
    · rw [hg] at hb
      simp at hb
      obtain ⟨⟨h1, h2⟩, -⟩ := hb
      simp [DRW_texture_ensure_fullscreen_2D, ensure_2D_of_isSome, h1]
  · rw [depth_double_fbl]
    cases hg : has_flag st.effects.enabled_effects F.EFFECT_DEPTH_DOUBLE_BUFFER
    · rw [hg] at hb
      simp at hb
      obtain ⟨-, h1, h2⟩ := hb
      clear hS
      rcases st with ⟨⟨⟩, ⟨⟩, _, _, _, _, _, _⟩
      simp_all
    · rw [hg] at hb
      simp at hb
      obtain ⟨⟨h1, h2⟩, -⟩ := hb
      simp [DRW_texture_ensure_fullscreen_2D, ensure_2D_of_isSome, ensure_config_of_isSome, h1, h2]
  · unfold provision_depth_double
    cases hg : has_flag st.effects.enabled_effects F.EFFECT_DEPTH_DOUBLE_BUFFER
    · simp
    · rw [hg] at hb
      simp at hb
      obtain ⟨⟨h1, h2⟩, -⟩ := hb
      simp [DRW_texture_ensure_fullscreen_2D, ensure_2D_of_isSome, ensure_config_of_isSome, h1, h2]

theorem double_keeps (F : EffectFlags) (env : InitEnv) :
    KeepsSettled F (provision_double F env) := by
  intro st hS
  have hb := hS.1 GatedBuffer.color_double_buffer
  simp only [GatedBuffer.texture, GatedBuffer.framebuffers, GatedBuffer.gate,
    GatedBuffer.flags, List.all_cons, List.all_nil, Bool.and_true] at hb
  rw [double_txl, double_fbl, double_gpu]
  cases hg : has_flag st.effects.enabled_effects F.EFFECT_DOUBLE_BUFFER
  · rw [hg] at hb
    simp at hb
    obtain ⟨-, h1, h2, h3⟩ := hb
    clear hS
    rcases st with ⟨⟨⟩, ⟨⟩, _, _, _, _, _, _⟩
    simp_all [cleanup_buffer_eq]
  · rw [hg] at hb
    simp at hb
    obtain ⟨⟨h1, h2, h3⟩, -⟩ := hb
    simp [setup_buffer_of_present, h1, h2, h3]

theorem taa_keeps (F : EffectFlags) (env : InitEnv) :
    KeepsSettled F (provision_taa F env) := by
  intro st hS
  have hb := hS.1 GatedBuffer.taa_history
  simp only [GatedBuffer.texture, GatedBuffer.framebuffers, GatedBuffer.gate,
    GatedBuffer.flags, List.all_cons, List.all_nil, Bool.and_true] at hb
  rw [taa_txl, taa_fbl, taa_gpu]
  cases hg : has_flag st.effects.enabled_effects (F.EFFECT_TAA ||| F.EFFECT_TAA_REPROJECT)
  · rw [hg] at hb
    simp at hb
    obtain ⟨-, h1, h2, h3⟩ := hb
    clear hS
    rcases st with ⟨⟨⟩, ⟨⟩, _, _, _, _, _, _⟩
    simp_all [cleanup_buffer_eq]
  · rw [hg] at hb
    simp at hb
    obtain ⟨⟨h1, h2, h3⟩, -⟩ := hb
    simp [setup_buffer_of_present, h1, h2, h3]

theorem mip_ratio_keeps (F : EffectFlags) (env : InitEnv) :
    KeepsSettled F (provision_mip_ratio env) :=
  fun _ _ => ⟨rfl, rfl, rfl, rfl⟩

theorem normal_keeps (F : EffectFlags) (env : InitEnv) :
    KeepsSettled F (provision_normal F env) := by
  intro st _
  simp

theorem KeepsSettled_comp {F : EffectFlags} {f g : EEVEE_Data → EEVEE_Data}
    (hf : KeepsSettled F f) (hg : KeepsSettled F g) : KeepsSettled F (fun st => g (f st)) := by
  intro st hS
  obtain ⟨a1, a2, a3, a4⟩ := hf st hS
  have hS2 : Settled F (f st).effects.enabled_effects (f st).txl (f st).fbl := by
    rw [a1, a2, a4]; exact hS
  obtain ⟨b1, b2, b3, b4⟩ := hg (f st) hS2
  exact ⟨b1.trans a1, b2.trans a2, b3.trans a3, b4.trans a4⟩

/-- On a settled state the whole provisioning allocates and frees nothing. -/
theorem provision_keeps (F : EffectFlags) (env : InitEnv) :
    KeepsSettled F (effects_provision F env) := by
  have h : KeepsSettled F (fun st => provision_taa F env (provision_double F env
      (provision_depth_double F env (provision_velocity F env (provision_normal F env
      (provision_mip_ratio env (provision_maxz env (provision_color_post F env st)))))))) :=
    KeepsSettled_comp (KeepsSettled_comp (KeepsSettled_comp (KeepsSettled_comp
    (KeepsSettled_comp (KeepsSettled_comp (KeepsSettled_comp (color_post_keeps F env)
    (maxz_keeps F env)) (mip_ratio_keeps F env)) (normal_keeps F env)) (velocity_keeps F env))
    (depth_double_keeps F env)) (double_keeps F env)) (taa_keeps F env)
  exact h

theorem nat_or_eq_zero (a b : Nat) : a ||| b = 0 ↔ a = 0 ∧ b = 0 := by
  constructor
  · intro h
    have key : ∀ i, a.testBit i = false ∧ b.testBit i = false := by
      intro i
      have hi := congrArg (fun n => Nat.testBit n i) h
      simpa [Nat.testBit_or] using hi
    constructor
    · apply Nat.eq_of_testBit_eq
      intro i
      simp [(key i).1]
    · apply Nat.eq_of_testBit_eq
      intro i
      simp [(key i).2]
  · rintro ⟨rfl, rfl⟩
    rfl

theorem gate_taa_iff (F : EffectFlags) (E : Nat) :
    GatedBuffer.taa_history.gate F E = true ↔
      E &&& F.EFFECT_TAA ≠ 0 ∨ E &&& F.EFFECT_TAA_REPROJECT ≠ 0 := by
  simp only [GatedBuffer.gate, GatedBuffer.flags, has_flag_iff, Nat.and_or_distrib_left]
  rw [Ne, nat_or_eq_zero]
  tauto


/-! ## Stability of single buffers -/

theorem provision_untouched (F : EffectFlags) (env : InitEnv) (st : EEVEE_Data) :
    (effects_provision F env st).txl.color = st.txl.color
      ∧ (effects_provision F env st).fbl.main_fb = st.fbl.main_fb
      ∧ (effects_provision F env st).fbl.main_color_fb = st.fbl.main_color_fb := by
  simp [effects_provision]

theorem provision_unconditional_stable (F : EffectFlags) (env : InitEnv) (st : EEVEE_Data) :
    (st.txl.maxzbuffer.isSome = true →
        (effects_provision F env st).txl.maxzbuffer = st.txl.maxzbuffer)
      ∧ (st.fbl.downsample_fb.isSome = true →
        (effects_provision F env st).fbl.downsample_fb = st.fbl.downsample_fb)
      ∧ (st.fbl.velocity_resolve_fb.isSome = true →
        (effects_provision F env st).fbl.velocity_resolve_fb = st.fbl.velocity_resolve_fb)
      ∧ (has_flag st.effects.enabled_effects F.EFFECT_VELOCITY_BUFFER = false →
        (effects_provision F env st).fbl.velocity_resolve_fb = st.fbl.velocity_resolve_fb)
      ∧ (has_flag st.effects.enabled_effects F.EFFECT_VELOCITY_BUFFER = true →
        (effects_provision F env st).fbl.velocity_resolve_fb.isSome = true) := by
  refine ⟨?_, ?_, ?_, ?_, ?_⟩
  · intro h
    simp [effects_provision, ensure_2D_of_isSome, h]
  · intro h
    simp only [effects_provision, taa_fbl, double_fbl, depth_double_fbl, velocity_fbl,
      normal_fbl, mip_ratio_fbl, maxz_fbl, color_post_fbl]
    cases hd : st.fbl.downsample_fb
    · simp [hd] at h
    · rfl
  · intro h
    simp only [effects_provision, taa_fbl, double_fbl, depth_double_fbl, velocity_fbl,
      normal_fbl, mip_ratio_fbl, maxz_fbl, color_post_fbl, normal_enabled, mip_ratio_effects,
      maxz_effects, color_post_effects]
    split_ifs
    · rw [ensure_config_of_isSome _ _ h]
    · rfl
  · intro h
    simp [effects_provision, h]
  · intro h
    simp [effects_provision, h, ensure_config_isSome]

theorem provision_buffer_stable (F : EffectFlags) (env : InitEnv) (st : EEVEE_Data)
    (b : GatedBuffer)
    (h : (b.gate F st.effects.enabled_effects = true ∧ b.present st = true)
      ∨ (b.gate F st.effects.enabled_effects = false ∧ b.freed st = true)) :
    b.texture (effects_provision F env st).txl = b.texture st.txl
      ∧ b.framebuffers (effects_provision F env st).fbl = b.framebuffers st.fbl := by
  cases b <;>
    simp only [GatedBuffer.gate, GatedBuffer.flags, GatedBuffer.present, GatedBuffer.freed,
      GatedBuffer.texture, GatedBuffer.framebuffers, List.all_cons, List.all_nil,
      Bool.and_true, Bool.and_eq_true] at h <;>
    simp only [effects_provision, GatedBuffer.texture, GatedBuffer.framebuffers,
      taa_txl, taa_fbl, taa_effects, double_txl,
      double_fbl, double_effects, depth_double_txl, depth_double_fbl, depth_double_effects,
      velocity_txl, velocity_fbl, velocity_enabled, normal_txl, normal_fbl, normal_enabled,
      mip_ratio_txl, mip_ratio_fbl, mip_ratio_effects, maxz_txl, maxz_fbl, maxz_effects,
      color_post_txl, color_post_fbl, color_post_effects] <;>
    rcases h with ⟨hg, h1, h2⟩ | ⟨hg, h1, h2⟩ <;>
    simp_all [setup_buffer_of_present, cleanup_buffer_eq, DRW_texture_ensure_fullscreen_2D,
      ensure_2D_of_isSome, ensure_config_of_isSome]

theorem gate_eq_of_disjoint (F : EffectFlags) (b : GatedBuffer) (E1 E2 B : Nat)
    (hB : E1 ^^^ E2 = B) (hd : b.flags F &&& B = 0) : b.gate F E1 = b.gate F E2 := by
  have e : E2 = E1 ^^^ B := by
    rw [← hB, ← Nat.xor_assoc, Nat.xor_self, Nat.zero_xor]
  have : E2 &&& b.flags F = E1 &&& b.flags F := by
    rw [e, Nat.and_xor_distrib_right, Nat.and_comm B, hd, Nat.xor_zero]
  simp [GatedBuffer.gate, has_flag, this]

/-! ## Binary32 rounding -/

theorem rhe_intCast (n : Int) : round_half_even (n : ℚ) = n := by
  simp [round_half_even]

theorem rhe_ge (N : Int) (x : ℚ) (h : (N : ℚ) ≤ x) : N ≤ round_half_even x := by
  have hf : N ≤ ⌊x⌋ := Int.le_floor.2 h
  unfold round_half_even
  split_ifs <;> omega

theorem rhe_le (N : Int) (x : ℚ) (h : x ≤ (N : ℚ)) : round_half_even x ≤ N := by
  have hf : ⌊x⌋ ≤ N := Int.floor_le_floor h |>.trans (by rw [Int.floor_intCast])
  by_cases hx : x = (N : ℚ)
  · rw [hx, rhe_intCast]
  · have hlt : x < (N : ℚ) := lt_of_le_of_ne h hx
    have hf2 : ⌊x⌋ < N := Int.floor_lt.2 hlt
    unfold round_half_even
    split_ifs <;> omega

theorem rhe_near (n : Int) (x : ℚ) (h : |x - n| < 1 / 2) : round_half_even x = n := by
  rw [abs_lt] at h
  obtain ⟨h1, h2⟩ := h
  by_cases hx : (n : ℚ) ≤ x
  · have hf : ⌊x⌋ = n := Int.floor_eq_iff.2 ⟨hx, by linarith⟩
    unfold round_half_even
    rw [hf, if_pos (by linarith)]
  · push_neg at hx
    have hf : ⌊x⌋ = n - 1 := Int.floor_eq_iff.2 ⟨by push_cast; linarith, by push_cast; linarith⟩
    unfold round_half_even
    rw [hf, if_neg (by push_cast; linarith), if_pos (by push_cast; linarith)]
    ring

theorem exponent_eq (q : ℚ) (e : Int) (h1 : (2 : ℚ) ^ e ≤ |q|) (h2 : |q| < (2 : ℚ) ^ (e + 1))
    (he : -126 ≤ e) : F32.exponent q = e := by
  have hpos : (0 : ℚ) < |q| := lt_of_lt_of_le (by positivity) h1
  have hlog : Int.log 2 |q| = e := by
    apply le_antisymm
    · have := (Int.lt_zpow_iff_log_lt (by norm_num : 1 < 2) hpos).1 (by exact_mod_cast h2)
      omega
    · exact (Int.zpow_le_iff_le_log (by norm_num : 1 < 2) hpos).1 (by exact_mod_cast h1)
  rw [F32.exponent, hlog]
  exact max_eq_left he

theorem round_eval (q : ℚ) (e n : Int) (h1 : (2 : ℚ) ^ e ≤ |q|) (h2 : |q| < (2 : ℚ) ^ (e + 1))
    (he : -126 ≤ e) (hn : |q / (2 : ℚ) ^ (e - 23) - n| < 1 / 2)
    (hb : |(n : ℚ) * (2 : ℚ) ^ (e - 23)| < (2 : ℚ) ^ (128 : ℕ)) :
    F32.round q = F32.fin ((n : ℚ) * (2 : ℚ) ^ (e - 23)) := by
  unfold F32.round F32.ulp
  rw [exponent_eq q e h1 h2 he, rhe_near n _ hn]
  simp only []
  rw [if_neg (not_le.2 hb)]

/-- A value `k * 2^s` with less than 24 significant bits is not changed by rounding. -/
theorem round_dyadic (k s : Int) (hk : |k| < 2 ^ 24) (hs : -149 ≤ s)
    (hb : |(k : ℚ) * (2 : ℚ) ^ s| < (2 : ℚ) ^ (128 : ℕ)) :
    F32.round ((k : ℚ) * (2 : ℚ) ^ s) = F32.fin ((k : ℚ) * (2 : ℚ) ^ s) := by
  by_cases hk0 : k = 0
  · subst hk0
    have h0 : round_half_even ((0 : ℚ) / F32.ulp 0) = 0 := by
      rw [zero_div]
      exact rhe_intCast 0
    simp only [Int.cast_zero, zero_mul]
    unfold F32.round
    simp only []
    rw [h0]
    simp
  have hexp : F32.exponent ((k : ℚ) * (2 : ℚ) ^ s) ≤ s + 23 := by
    rw [F32.exponent]
    apply max_le _ (by omega)
    have hpos : (0 : ℚ) < |(k : ℚ) * (2 : ℚ) ^ s| := by
      apply abs_pos.2
      apply mul_ne_zero (by exact_mod_cast hk0)
      positivity
    have hlt : |(k : ℚ) * (2 : ℚ) ^ s| < ((2 : ℕ) : ℚ) ^ (s + 24) := by
      rw [abs_mul, abs_of_pos (by positivity : (0 : ℚ) < (2 : ℚ) ^ s)]
      have hkq : |(k : ℚ)| < (2 : ℚ) ^ (24 : ℕ) := by exact_mod_cast hk
      have : ((2 : ℕ) : ℚ) ^ (s + 24) = (2 : ℚ) ^ (24 : ℕ) * (2 : ℚ) ^ s := by
        rw [zpow_add₀ (by norm_num)]
        push_cast
        rw [mul_comm]
        norm_cast
      rw [this]
      exact mul_lt_mul_of_pos_right hkq (by positivity)
    have := (Int.lt_zpow_iff_log_lt (by norm_num : 1 < 2) hpos).1 hlt
    omega
  obtain ⟨d, hd⟩ : ∃ d : ℕ, s + 23 - F32.exponent ((k : ℚ) * (2 : ℚ) ^ s) = (d : Int) :=
    ⟨(s + 23 - F32.exponent ((k : ℚ) * (2 : ℚ) ^ s)).toNat, by omega⟩
  have hu : F32.ulp ((k : ℚ) * (2 : ℚ) ^ s) = (2 : ℚ) ^ s / (2 : ℚ) ^ d := by
    rw [F32.ulp]
    have : F32.exponent ((k : ℚ) * (2 : ℚ) ^ s) - 23 = s - (d : Int) := by omega
    rw [this, zpow_sub₀ (by norm_num), zpow_natCast]
  have hquot : (k : ℚ) * (2 : ℚ) ^ s / F32.ulp ((k : ℚ) * (2 : ℚ) ^ s)
      = ((k * 2 ^ d : Int) : ℚ) := by
    rw [hu]
    push_cast
    field_simp
    ring
  unfold F32.round
  simp only []
  rw [hquot, rhe_intCast, hu]
  have hval : ((k * 2 ^ d : Int) : ℚ) * ((2 : ℚ) ^ s / (2 : ℚ) ^ d) = (k : ℚ) * (2 : ℚ) ^ s := by
    push_cast
    field_simp
    ring
  rw [hval, if_neg (not_le.2 hb)]

/-- A value that rounding leaves unchanged is `k * 2^s` with less than 24 significant
bits. -/
theorem dyadic_of_round_eq (q : ℚ) (h : F32.round q = F32.fin q) :
    ∃ k s : Int, q = (k : ℚ) * (2 : ℚ) ^ s ∧ |k| < 2 ^ 24 ∧ -149 ≤ s
      ∧ |q| < (2 : ℚ) ^ (128 : ℕ) := by
  unfold F32.round at h
  simp only [] at h
  split_ifs at h with hov
  have hq : (round_half_even (q / F32.ulp q) : ℚ) * F32.ulp q = q := by
    injection h
  have hupos : (0 : ℚ) < F32.ulp q := by
    unfold F32.ulp
    positivity
  refine ⟨round_half_even (q / F32.ulp q), F32.exponent q - 23, ?_, ?_, ?_, ?_⟩
  · rw [← F32.ulp]
    exact hq.symm
  · have hn : (round_half_even (q / F32.ulp q) : ℚ) = q / F32.ulp q := by
      rw [eq_div_iff (ne_of_gt hupos)]
      exact hq
    have hlt : |q / F32.ulp q| < (2 : ℚ) ^ (24 : ℕ) := by
      rw [abs_div, abs_of_pos hupos, div_lt_iff₀ hupos]
      have h2 : |q| < ((2 : ℕ) : ℚ) ^ (Int.log 2 |q| + 1) :=
        Int.lt_zpow_succ_log_self (by norm_num) _
      have h3 : ((2 : ℕ) : ℚ) ^ (Int.log 2 |q| + 1) ≤ (2 : ℚ) ^ (24 : ℕ) * F32.ulp q := by
        rw [F32.ulp]
        have : (2 : ℚ) ^ (24 : ℕ) * (2 : ℚ) ^ (F32.exponent q - 23)
            = (2 : ℚ) ^ (F32.exponent q + 1) := by
          rw [← zpow_natCast, ← zpow_add₀ (by norm_num)]
          congr 1
          push_cast
          ring
        rw [this]
        push_cast
        apply zpow_le_zpow_right₀ (by norm_num)
        have : Int.log 2 |q| ≤ F32.exponent q := le_max_left _ _
        omega
      exact lt_of_lt_of_le h2 h3
    rw [← hn] at hlt
    exact_mod_cast hlt
  · have : -126 ≤ F32.exponent q := le_max_right _ _
    omega
  · rw [hq] at hov
    exact not_le.1 hov

theorem two_pow_lt_128 (k : ℚ) (a b : ℕ) (hk : |k| < (2 : ℚ) ^ a) (hab : a ≤ b) :
    |k| < (2 : ℚ) ^ b :=
  lt_of_lt_of_le hk (pow_le_pow_right₀ (by norm_num) hab)

theorem of_int_exact (n : Int) (h : |n| < 2 ^ 24) : F32.of_int n = F32.fin (n : ℚ) := by
  have hq : |(n : ℚ)| < (2 : ℚ) ^ (24 : ℕ) := by exact_mod_cast h
  have := round_dyadic n 0 h (by norm_num)
    (by simpa using two_pow_lt_128 _ 24 128 hq (by norm_num))
  simpa [F32.of_int] using this

theorem powf_two_exact (i : Nat) (hi : i ≤ 9) : powf_two i = F32.fin ((2 : ℚ) ^ i) := by
  have hb : |((1 : Int) : ℚ) * (2 : ℚ) ^ (i : Int)| < (2 : ℚ) ^ (128 : ℕ) := by
    rw [Int.cast_one, one_mul, zpow_natCast, abs_of_pos (by positivity)]
    exact pow_lt_pow_right₀ (by norm_num) (by omega)
  have := round_dyadic 1 i (by norm_num) (by omega) hb
  simpa [powf_two] using this

/-- Scaling a converted integer by a power of two is exact. -/
theorem mul_pow_exact (k s : Int) (i : Nat) (hk : |k| < 2 ^ 24) (hs : -149 ≤ s) (hi : i ≤ 9)
    (hb : |(k : ℚ) * (2 : ℚ) ^ s * (2 : ℚ) ^ i| < (2 : ℚ) ^ (128 : ℕ)) :
    F32.mul (F32.fin ((k : ℚ) * (2 : ℚ) ^ s)) (powf_two i)
      = F32.fin ((k : ℚ) * (2 : ℚ) ^ s * (2 : ℚ) ^ i) := by
  rw [powf_two_exact i hi]
  have e : (k : ℚ) * (2 : ℚ) ^ s * (2 : ℚ) ^ i = (k : ℚ) * (2 : ℚ) ^ (s + i) := by
    rw [zpow_add₀ (by norm_num), zpow_natCast, mul_assoc]
  show F32.round ((k : ℚ) * (2 : ℚ) ^ s * (2 : ℚ) ^ i) = _
  rw [e] at hb ⊢
  exact round_dyadic k (s + i) hk (by omega) hb

/-- In the range of exactly converted sizes the entry is the rounded quotient. -/
theorem mip_ratio_axis_round (v m : Int) (i : Nat) (hv : |v| < 2 ^ 24) (hm0 : m ≠ 0)
    (hm : |m| < 2 ^ 24) (hi : i ≤ 9) :
    mip_ratio_axis v m i = F32.round ((v : ℚ) / ((m : ℚ) * (2 : ℚ) ^ i)) := by
  have hmq : |(m : ℚ)| < (2 : ℚ) ^ (24 : ℕ) := by exact_mod_cast hm
  have hb : |(m : ℚ) * (2 : ℚ) ^ (0 : Int) * (2 : ℚ) ^ i| < (2 : ℚ) ^ (128 : ℕ) := by
    rw [zpow_zero, mul_one, abs_mul, abs_of_pos (by positivity : (0 : ℚ) < (2 : ℚ) ^ i)]
    calc |(m : ℚ)| * (2 : ℚ) ^ i < (2 : ℚ) ^ (24 : ℕ) * (2 : ℚ) ^ i :=
          mul_lt_mul_of_pos_right hmq (by positivity)
      _ ≤ (2 : ℚ) ^ (24 : ℕ) * (2 : ℚ) ^ (9 : ℕ) :=
          mul_le_mul_of_nonneg_left (pow_le_pow_right₀ (by norm_num) hi) (by positivity)
      _ ≤ (2 : ℚ) ^ (128 : ℕ) := by norm_num
  have h2 := mul_pow_exact m 0 i hm (by norm_num) hi hb
  rw [zpow_zero, mul_one] at h2
  unfold mip_ratio_axis
  rw [of_int_exact v hv, of_int_exact m hm, h2]
  have hne : (m : ℚ) * (2 : ℚ) ^ i ≠ 0 :=
    mul_ne_zero (by exact_mod_cast hm0) (by positivity)
  show (if (m : ℚ) * (2 : ℚ) ^ i = 0 then _ else _) = _
  rw [if_neg hne]

/-- A zero mip size makes the entry of a positive viewport size infinite. -/
theorem mip_ratio_axis_zero (v : Int) (i : Nat) (hv0 : 0 < v) (hv : |v| < 2 ^ 24)
    (hi : i ≤ 9) : mip_ratio_axis v 0 i = F32.inf false := by
  have h0 : F32.of_int 0 = F32.fin 0 := by simpa using of_int_exact 0 (by norm_num)
  have hz : F32.round 0 = F32.fin 0 := by simpa [F32.of_int] using h0
  have hvq : (v : ℚ) ≠ 0 := by exact_mod_cast (ne_of_gt hv0)
  have hvn : ¬ (v : ℚ) < 0 := by
    push_neg
    exact_mod_cast le_of_lt hv0
  unfold mip_ratio_axis
  rw [of_int_exact v hv, h0, powf_two_exact i hi]
  show F32.div (F32.fin (v : ℚ)) (F32.round (0 * (2 : ℚ) ^ i)) = _
  rw [zero_mul, hz]
  simp [F32.div, hvq, hvn]

/-- Rounding keeps a value of `[1, 2 - 1/512]` inside `[1, 2)`. -/
theorem round_unit_binade (q : ℚ) (h1 : 1 ≤ q) (h2 : q ≤ 2 - 1 / 512) :
    ∃ r : ℚ, F32.round q = F32.fin r ∧ 1 ≤ r ∧ r < 2 := by
  have hq : |q| = q := abs_of_nonneg (by linarith)
  have he : F32.exponent q = 0 :=
    exponent_eq q 0 (by rw [hq]; simpa using h1) (by rw [hq]; norm_num; linarith) (by norm_num)
  have hu : F32.ulp q = 1 / 8388608 := by
    rw [F32.ulp, he]
    norm_num [zpow_neg]
  have hlo : (8388608 : Int) ≤ round_half_even (q / F32.ulp q) := by
    apply rhe_ge
    rw [hu]
    push_cast
    linarith
  have hhi : round_half_even (q / F32.ulp q) ≤ (16760832 : Int) := by
    apply rhe_le
    rw [hu]
    push_cast
    linarith
  have hr : F32.round q
      = (if (2 : ℚ) ^ (128 : ℕ) ≤ |(round_half_even (q / F32.ulp q) : ℚ) * F32.ulp q|
          then F32.inf (decide (q < 0))
          else F32.fin ((round_half_even (q / F32.ulp q) : ℚ) * F32.ulp q)) := rfl
  generalize round_half_even (q / F32.ulp q) = n at hr hlo hhi
  rw [hu] at hr
  have hloq : (8388608 : ℚ) ≤ (n : ℚ) := by exact_mod_cast hlo
  have hhiq : (n : ℚ) ≤ (16760832 : ℚ) := by exact_mod_cast hhi
  have hnov : ¬ (2 : ℚ) ^ (128 : ℕ) ≤ |(n : ℚ) * (1 / 8388608)| := by
    rw [not_le, abs_of_nonneg (by linarith)]
    calc (n : ℚ) * (1 / 8388608) ≤ 16760832 * (1 / 8388608) := by linarith
      _ < (2 : ℚ) ^ (128 : ℕ) := by norm_num
  rw [if_neg hnov] at hr
  exact ⟨(n : ℚ) * (1 / 8388608), hr, by linarith, by linarith⟩

/-- The mip sizes of a viewport-sized chain convert exactly, and so do their products
with `2^i`, when the viewport size itself is held exactly. -/
theorem chain_size_exact (w : Int) (hw : 1 ≤ w) (hrep : F32.of_int w = F32.fin (w : ℚ))
    (i : Nat) (hi : i ≤ 9) :
    F32.of_int (max 1 (w / 2 ^ i)) = F32.fin ((max 1 (w / 2 ^ i) : Int) : ℚ)
      ∧ F32.mul (F32.fin ((max 1 (w / 2 ^ i) : Int) : ℚ)) (powf_two i)
        = F32.fin (((max 1 (w / 2 ^ i) : Int) : ℚ) * (2 : ℚ) ^ i) := by
  obtain ⟨k, s, hks, hk, hs, hwb⟩ := dyadic_of_round_eq (w : ℚ) hrep
  have hp : (0 : Int) < 2 ^ i := by positivity
  have hpq : (0 : ℚ) < (2 : ℚ) ^ i := by positivity
  have hp9 : (2 : Int) ^ i ≤ 2 ^ 9 := pow_le_pow_right₀ (by norm_num) hi
  have hm1 : 1 ≤ max 1 (w / 2 ^ i) := le_max_left _ _
  have hdiv : (w / 2 ^ i) * 2 ^ i ≤ w := Int.ediv_mul_le w (ne_of_gt hp)
  have hmw : max 1 (w / 2 ^ i) * 2 ^ i ≤ max w (2 ^ 9) := by
    rcases le_total 1 (w / 2 ^ i) with h | h
    · rw [max_eq_right h]
      exact le_trans hdiv (le_max_left _ _)
    · rw [max_eq_left h, one_mul]
      exact le_trans hp9 (le_max_right _ _)
  have hwq : |(w : ℚ)| = (w : ℚ) := abs_of_nonneg (by exact_mod_cast (by omega : (0 : Int) ≤ w))
  have hbound : (((max 1 (w / 2 ^ i) : Int) : ℚ)) * (2 : ℚ) ^ i < (2 : ℚ) ^ (128 : ℕ) := by
    have h1 : ((max 1 (w / 2 ^ i) : Int) : ℚ) * (2 : ℚ) ^ i ≤ ((max w (2 ^ 9) : Int) : ℚ) := by
      have := (Int.cast_le (R := ℚ)).2 hmw
      simpa only [Int.cast_mul, Int.cast_pow, Int.cast_ofNat] using this
    have h2 : ((max w (2 ^ 9) : Int) : ℚ) < (2 : ℚ) ^ (128 : ℕ) := by
      rcases le_total w (2 ^ 9) with h | h
      · rw [max_eq_right h]
        norm_num
      · rw [max_eq_left h]
        rw [hwq] at hwb
        exact hwb
    exact lt_of_le_of_lt h1 h2
  by_cases hm24 : max 1 (w / 2 ^ i) < 2 ^ 24
  · have habs : |max 1 (w / 2 ^ i)| < 2 ^ 24 := by
      rw [abs_of_nonneg (by omega)]
      exact hm24
    refine ⟨of_int_exact _ habs, ?_⟩
    have hb : |((max 1 (w / 2 ^ i) : Int) : ℚ) * (2 : ℚ) ^ (0 : Int) * (2 : ℚ) ^ i|
        < (2 : ℚ) ^ (128 : ℕ) := by
      rw [zpow_zero, mul_one, abs_of_nonneg (by positivity)]
      exact hbound
    have := mul_pow_exact (max 1 (w / 2 ^ i)) 0 i habs (by norm_num) hi hb
    rwa [zpow_zero, mul_one] at this
  · push_neg at hm24
    have hmeq : max 1 (w / 2 ^ i) = w / 2 ^ i := by
      apply max_eq_right
      by_contra hcon
      push_neg at hcon
      rw [max_eq_left (le_of_lt hcon)] at hm24
      norm_num at hm24
    rw [hmeq] at hm24 hbound ⊢
    have hkpos : 0 < k := by
      by_contra hcon
      push_neg at hcon
      have : (w : ℚ) ≤ 0 := by
        rw [hks]
        exact mul_nonpos_of_nonpos_of_nonneg (by exact_mod_cast hcon) (by positivity)
      have : (1 : ℚ) ≤ (w : ℚ) := by exact_mod_cast hw
      linarith
    have hkq : (k : ℚ) < (2 : ℚ) ^ (24 : ℕ) := by
      have : k < 2 ^ 24 := lt_of_le_of_lt (le_abs_self k) hk
      exact_mod_cast this
    have hsi : (i : Int) ≤ s := by
      by_contra hcon
      push_neg at hcon
      have hle : (2 : ℚ) ^ s ≤ (2 : ℚ) ^ (i : Int) :=
        zpow_le_zpow_right₀ (by norm_num) (le_of_lt hcon)
      have h1 : ((w / 2 ^ i : Int) : ℚ) * (2 : ℚ) ^ i ≤ (w : ℚ) := by exact_mod_cast hdiv
      have h2 : (w : ℚ) < (2 : ℚ) ^ (24 : ℕ) * (2 : ℚ) ^ i := by
        rw [hks]
        calc (k : ℚ) * (2 : ℚ) ^ s ≤ (k : ℚ) * (2 : ℚ) ^ (i : Int) :=
              mul_le_mul_of_nonneg_left hle (by exact_mod_cast le_of_lt hkpos)
          _ < (2 : ℚ) ^ (24 : ℕ) * (2 : ℚ) ^ (i : Int) :=
              mul_lt_mul_of_pos_right hkq (by positivity)
          _ = (2 : ℚ) ^ (24 : ℕ) * (2 : ℚ) ^ i := by rw [zpow_natCast]
      have h3 : ((w / 2 ^ i : Int) : ℚ) < (2 : ℚ) ^ (24 : ℕ) := by
        by_contra hc
        push_neg at hc
        have := mul_le_mul_of_nonneg_right hc (le_of_lt hpq)
        linarith
      have h4 : (2 : ℚ) ^ (24 : ℕ) ≤ ((w / 2 ^ i : Int) : ℚ) := by exact_mod_cast hm24
      linarith
    obtain ⟨d, hd⟩ : ∃ d : ℕ, s = (i : Int) + (d : Int) := ⟨(s - i).toNat, by omega⟩
    have hwint : w = k * 2 ^ d * 2 ^ i := by
      have : (w : ℚ) = ((k * 2 ^ d * 2 ^ i : Int) : ℚ) := by
        rw [hks, hd, zpow_add₀ (by norm_num), zpow_natCast, zpow_natCast]
        push_cast
        ring
      exact_mod_cast this
    have hquot : w / 2 ^ i = k * 2 ^ d := by
      rw [hwint, Int.mul_ediv_cancel _ (ne_of_gt hp)]
    have hmq : ((w / 2 ^ i : Int) : ℚ) = (k : ℚ) * (2 : ℚ) ^ (d : Int) := by
      rw [hquot, zpow_natCast]
      push_cast
      ring
    rw [hmq] at hbound ⊢
    have hb1 : |(k : ℚ) * (2 : ℚ) ^ (d : Int)| < (2 : ℚ) ^ (128 : ℕ) := by
      rw [abs_of_nonneg (mul_nonneg (by exact_mod_cast le_of_lt hkpos) (by positivity))]
      have : (1 : ℚ) ≤ (2 : ℚ) ^ i := one_le_pow₀ (by norm_num)
      have hnn : (0 : ℚ) ≤ (k : ℚ) * (2 : ℚ) ^ (d : Int) :=
        mul_nonneg (by exact_mod_cast le_of_lt hkpos) (by positivity)
      nlinarith
    have hb2 : |(k : ℚ) * (2 : ℚ) ^ (d : Int) * (2 : ℚ) ^ i| < (2 : ℚ) ^ (128 : ℕ) := by
      rw [abs_of_nonneg (by
        apply mul_nonneg (mul_nonneg (by exact_mod_cast le_of_lt hkpos) (by positivity))
        positivity)]
      exact hbound
    refine ⟨?_, mul_pow_exact k d i hk (by omega) hi hb2⟩
    have := round_dyadic k d hk (by omega) hb1
    unfold F32.of_int
    rw [hmq]
    exact this

/-! ## The mip ratio loop -/

/-- The entry the loop of lines 225-230 writes at index `i`. -/
theorem mip_ratio_fold (env : InitEnv) (color : Option GPUTexture) (l : List (Fin 10))
    (table : Fin 10 → F32 × F32) (i : Fin 10) :
    l.foldl (mip_ratio_step env color) table i =
      if i ∈ l then
        (mip_ratio_axis env.viewport_size.1 (env.GPU_texture_get_mipmap_size color i.val).1 i.val,
          mip_ratio_axis env.viewport_size.2 (env.GPU_texture_get_mipmap_size color i.val).2
            i.val)
      else table i := by
  induction l generalizing table with
  | nil => simp
  | cons a l ih =>
    rw [List.foldl_cons, ih]
    by_cases h1 : i ∈ l
    · simp [h1]
    · by_cases h2 : i = a
      · subst h2
        simp [h1, mip_ratio_step]
      · simp [h1, h2, mip_ratio_step, Function.update_noteq h2]

theorem provision_mip_ratio_eq (F : EffectFlags) (env : InitEnv) (st : EEVEE_Data) (i : Fin 10) :
    (effects_provision F env st).common_data.mip_ratio i =
      (mip_ratio_axis env.viewport_size.1
          (env.GPU_texture_get_mipmap_size st.txl.color i.val).1 i.val,
        mip_ratio_axis env.viewport_size.2
          (env.GPU_texture_get_mipmap_size st.txl.color i.val).2 i.val) := by
  have h : (effects_provision F env st).common_data.mip_ratio
      = (List.finRange 10).foldl (mip_ratio_step env st.txl.color) st.common_data.mip_ratio := by
    simp only [effects_provision, provision_taa, provision_double, provision_depth_double,
      provision_velocity, provision_normal]
    split_ifs <;> rfl
  rw [h, mip_ratio_fold]
  simp [List.mem_finRange]

/-- The table entries after `EEVEE_effects_init`. -/
theorem init_mip_ratio_eq (F : EffectFlags) (env : InitEnv) (vedata : EEVEE_DataEntry)
    (i : Fin 10) :
    (EEVEE_effects_init F env vedata).common_data.mip_ratio i =
      (mip_ratio_axis env.viewport_size.1
          (env.GPU_texture_get_mipmap_size vedata.txl.color i.val).1 i.val,
        mip_ratio_axis env.viewport_size.2
          (env.GPU_texture_get_mipmap_size vedata.txl.color i.val).2 i.val) :=
  provision_mip_ratio_eq F env _ i

/-! ## The recursive downsample -/

/-- A callback that only draws pass `p`. -/
theorem downsample_loop_calls (mc : Nat) (p : Pass) (callback : EEVEE_Data → Nat → EEVEE_Data)
    (hcb : ∀ s L, (callback s L).calls = s.calls ++ [DRWCall.draw_pass p]) (t : GPUTexture)
    (n L0 : Nat) (st : EEVEE_Data) :
    (recursive_downsample_loop mc callback n (L0 + 1) (mip_dim t L0) st).calls
      = st.calls ++ (List.range' (L0 + 1) (min n (mc - L0))).flatMap (level_calls t p) := by
  induction n generalizing L0 st with
  | zero => simp [recursive_downsample_loop]
  | succ n ih =>
    unfold recursive_downsample_loop
    by_cases h : mc < L0 + 1
    · have : mc - L0 = 0 := by omega
      simp [h, this]
    · have e : mc - L0 = (mc - (L0 + 1)) + 1 := by omega
      rw [if_neg h]
      simp only []
      have := ih (L0 + 1) (callback (issue st (DRWCall.mip_bind (L0 + 1) (next_mip_dim (mip_dim t L0)).1 (next_mip_dim (mip_dim t L0)).2)) (L0 + 1))
      rw [mip_dim] at this
      rw [this, hcb, e, Nat.succ_min_succ, List.range'_succ, List.flatMap_cons]
      simp [issue, level_calls, mip_dim]

theorem simple_cb_calls (s : EEVEE_Data) (L : Nat) :
    (simple_downsample_cb s L).calls = s.calls ++ [DRWCall.draw_pass Pass.color_downsample_ps] :=
  rfl

theorem max_cb_calls (s : EEVEE_Data) (L : Nat) :
    (max_downsample_cb s L).calls = s.calls ++ [DRWCall.draw_pass Pass.maxz_downlevel_ps] :=
  rfl

theorem recursive_downsample_calls (mip_count : GPUTexture → Nat) (p : Pass)
    (callback : EEVEE_Data → Nat → EEVEE_Data)
    (hcb : ∀ s L, (callback s L).calls = s.calls ++ [DRWCall.draw_pass p]) (t : GPUTexture)
    (max_lvl : Int) (st : EEVEE_Data) :
    (GPU_framebuffer_recursive_downsample mip_count (some t) max_lvl callback st).calls
      = st.calls ++ (List.range' 1 (min max_lvl.toNat (mip_count t))).flatMap (level_calls t p) := by
  have h := downsample_loop_calls (mip_count t) p callback hcb t max_lvl.toNat 0 st
  simpa [GPU_framebuffer_recursive_downsample, mip_dim] using h

theorem max_ii_eq_max (a b : Int) : max_ii a b = max a b := by
  unfold max_ii
  rw [max_def]
  split_ifs <;> omega

theorem downsample_loop_frame (mc : Nat) (callback : EEVEE_Data → Nat → EEVEE_Data)
    (hcb : ∀ s L, (callback s L).fbl = s.fbl ∧ (callback s L).txl = s.txl)
    (n L : Nat) (dim : Int × Int) (st : EEVEE_Data) :
    (recursive_downsample_loop mc callback n L dim st).fbl = st.fbl
      ∧ (recursive_downsample_loop mc callback n L dim st).txl = st.txl := by
  induction n generalizing L dim st with
  | zero => exact ⟨rfl, rfl⟩
  | succ n ih =>
    unfold recursive_downsample_loop
    split_ifs
    · exact ⟨rfl, rfl⟩
    · obtain ⟨h1, h2⟩ := ih (L + 1) (next_mip_dim dim)
        (callback (issue st (DRWCall.mip_bind L (next_mip_dim dim).1 (next_mip_dim dim).2)) L)
      obtain ⟨h3, h4⟩ := hcb (issue st (DRWCall.mip_bind L (next_mip_dim dim).1 (next_mip_dim dim).2)) L
      exact ⟨h1.trans h3, h2.trans h4⟩

theorem recursive_downsample_frame (mip_count : GPUTexture → Nat)
    (callback : EEVEE_Data → Nat → EEVEE_Data)
    (hcb : ∀ s L, (callback s L).fbl = s.fbl ∧ (callback s L).txl = s.txl)
    (tex : Option GPUTexture) (max_lvl : Int) (st : EEVEE_Data) :
    (GPU_framebuffer_recursive_downsample mip_count tex max_lvl callback st).fbl = st.fbl
      ∧ (GPU_framebuffer_recursive_downsample mip_count tex max_lvl callback st).txl = st.txl := by
  cases tex with
  | none => exact ⟨rfl, rfl⟩
  | some t => exact downsample_loop_frame _ _ hcb _ _ _ _


theorem top_level_draws_append (a b : List DRWCall) :
    top_level_draws (a ++ b) = top_level_draws a ++ top_level_draws b := by
  simp [top_level_draws, List.filterMap_append]

theorem top_level_draws_levels (t : GPUTexture) (l : List Nat) :
    top_level_draws (l.flatMap (level_calls t Pass.maxz_downlevel_ps)) = [] := by
  induction l with
  | nil => rfl
  | cons a l ih =>
    rw [List.flatMap_cons, top_level_draws_append, ih]
    rfl

theorem max_downsample_fbl (mip_count : GPUTexture → Nat) (tex : Option GPUTexture)
    (max_lvl : Int) (st : EEVEE_Data) :
    (GPU_framebuffer_recursive_downsample mip_count tex max_lvl max_downsample_cb st).fbl
      = st.fbl :=
  (recursive_downsample_frame mip_count max_downsample_cb (fun _ _ => ⟨rfl, rfl⟩) _ _ _).1

theorem max_downsample_txl (mip_count : GPUTexture → Nat) (tex : Option GPUTexture)
    (max_lvl : Int) (st : EEVEE_Data) :
    (GPU_framebuffer_recursive_downsample mip_count tex max_lvl max_downsample_cb st).txl
      = st.txl :=
  (recursive_downsample_frame mip_count max_downsample_cb (fun _ _ => ⟨rfl, rfl⟩) _ _ _).2

theorem max_downsample_calls (mip_count : GPUTexture → Nat) (tex : Option GPUTexture)
    (max_lvl : Int) (st : EEVEE_Data) :
    (GPU_framebuffer_recursive_downsample mip_count tex max_lvl max_downsample_cb st).calls
      = st.calls ++ (match tex with
          | some t => (List.range' 1 (min max_lvl.toNat (mip_count t))).flatMap
              (level_calls t Pass.maxz_downlevel_ps)
          | none => []) := by
  cases tex with
  | none => simp [GPU_framebuffer_recursive_downsample]
  | some t =>
    exact recursive_downsample_calls mip_count Pass.maxz_downlevel_ps max_downsample_cb
      max_cb_calls t max_lvl st

/-- The calls issued by `EEVEE_create_minmax_buffer`. -/
theorem minmax_calls (get_mipmap_size : Option GPUTexture → Nat → Int × Int)
    (mip_count : GPUTexture → Nat) (st : EEVEE_Data) (depth_src : Option GPUTexture)
    (layer : Int) :
    (EEVEE_create_minmax_buffer get_mipmap_size mip_count st depth_src layer).calls
      = st.calls
        ++ [DRWCall.framebuffer_texture_attach st.fbl.downsample_fb st.txl.maxzbuffer,
            DRWCall.framebuffer_bind st.fbl.downsample_fb,
            DRWCall.draw_pass
              (if layer ≥ 0 then
                (if (get_mipmap_size st.txl.maxzbuffer 0).1 = (get_mipmap_size depth_src 0).1
                    ∧ (get_mipmap_size st.txl.maxzbuffer 0).2 = (get_mipmap_size depth_src 0).2
                  then Pass.maxz_copydepth_layer_ps else Pass.maxz_downdepth_layer_ps)
              else
                (if (get_mipmap_size st.txl.maxzbuffer 0).1 = (get_mipmap_size depth_src 0).1
                    ∧ (get_mipmap_size st.txl.maxzbuffer 0).2 = (get_mipmap_size depth_src 0).2
                  then Pass.maxz_copydepth_ps else Pass.maxz_downdepth_ps))]
        ++ (match st.txl.maxzbuffer with
            | some t => (List.range' 1 (min 8 (mip_count t))).flatMap
                (level_calls t Pass.maxz_downlevel_ps)
            | none => [])
        ++ [DRWCall.framebuffer_texture_detach st.fbl.downsample_fb st.txl.maxzbuffer,
            DRWCall.framebuffer_bind st.fbl.main_fb] := by
  unfold EEVEE_create_minmax_buffer
  simp only []
  by_cases hl : layer ≥ 0 <;>
    by_cases hf : ((get_mipmap_size st.txl.maxzbuffer 0).1 = (get_mipmap_size depth_src 0).1
      ∧ (get_mipmap_size st.txl.maxzbuffer 0).2 = (get_mipmap_size depth_src 0).2) <;>
    simp [hl, hf, issue, max_downsample_calls, max_downsample_fbl, max_downsample_txl]


/-! ## The compositor -/

theorem swap_double_g_data (st : EEVEE_Data) :
    (SWAP_DOUBLE_BUFFERS st).g_data = st.g_data
      ∧ (SWAP_DOUBLE_BUFFERS st).effects.enabled_effects = st.effects.enabled_effects
      ∧ (SWAP_DOUBLE_BUFFERS st).calls = st.calls := by
  unfold SWAP_DOUBLE_BUFFERS
  split_ifs <;> exact ⟨rfl, rfl, rfl⟩

/-- The part of the final phase that concerns the redraw request and the frame state. -/
theorem finish_frame_state (F : EffectFlags) (env : DrawEnv) (st : EEVEE_Data) :
    (draw_effects_finish F env st).calls
        = st.calls ++ (if st.g_data.valid_double_buffer = false
            ∧ st.effects.enabled_effects &&& F.EFFECT_DOUBLE_BUFFER ≠ 0
            ∧ env.is_image_render = false then [DRWCall.viewport_request_redraw] else [])
      ∧ (draw_effects_finish F env st).effects.prev_persmat = env.persmat
      ∧ (env.is_image_render = true →
          (draw_effects_finish F env st).g_data.valid_double_buffer
              = (draw_effects_finish F env st).txl.color_double_buffer.isSome
            ∧ (draw_effects_finish F env st).g_data.valid_taa_history
              = (draw_effects_finish F env st).txl.taa_history.isSome)
      ∧ (env.is_image_render = false → (draw_effects_finish F env st).g_data = st.g_data) := by
  unfold draw_effects_finish SWAP_DOUBLE_BUFFERS
  cases h1 : env.is_image_render <;> cases h2 : st.g_data.valid_double_buffer <;>
    cases h3 : has_flag st.effects.enabled_effects F.EFFECT_DOUBLE_BUFFER <;>
    cases h4 : st.effects.swap_double_buffer <;>
    cases h5 : (has_flag st.effects.enabled_effects F.EFFECT_TAA
        && decide (st.effects.source_buffer = st.txl.taa_history)) <;>
    simp [h1, h2, h3, h4, h5, issue, (has_flag_iff _ _).symm]

/-- The buffers after the final phase. -/
theorem finish_buffers (F : EffectFlags) (env : DrawEnv) (st : EEVEE_Data) :
    (draw_effects_finish F env st).effects.final_tx = st.effects.source_buffer
      ∧ (draw_effects_finish F env st).txl = (SWAP_DOUBLE_BUFFERS st).txl
      ∧ (draw_effects_finish F env st).fbl = (SWAP_DOUBLE_BUFFERS st).fbl
      ∧ (draw_effects_finish F env st).effects.swap_double_buffer = false := by
  unfold draw_effects_finish SWAP_DOUBLE_BUFFERS
  cases h1 : env.is_image_render <;> cases h2 : st.g_data.valid_double_buffer <;>
    cases h3 : has_flag st.effects.enabled_effects F.EFFECT_DOUBLE_BUFFER <;>
    cases h4 : st.effects.swap_double_buffer <;>
    cases h5 : (has_flag st.effects.enabled_effects F.EFFECT_TAA
        && decide (st.effects.source_buffer = st.txl.taa_history)) <;>
    simp [h1, h2, h3, h4, h5, issue]

theorem stack_eq (F : EffectFlags) (S : EffectStages) (env : DrawEnv) (st : EEVEE_Data) :
    draw_effects_stack F S env st = S.bloom_draw (S.temporal_sampling_draw
      (S.depth_of_field_draw (S.motion_blur_draw (draw_effects_begin F env st)))) := rfl

theorem draw_effects_begin_fields (F : EffectFlags) (env : DrawEnv) (st : EEVEE_Data) :
    (draw_effects_begin F env st).txl = st.txl
      ∧ (draw_effects_begin F env st).fbl = st.fbl
      ∧ (draw_effects_begin F env st).g_data = st.g_data
      ∧ (draw_effects_begin F env st).effects.enabled_effects = st.effects.enabled_effects
      ∧ (draw_effects_begin F env st).effects.source_buffer = st.txl.color
      ∧ (draw_effects_begin F env st).effects.target_buffer = st.fbl.effect_color_fb
      ∧ (draw_effects_begin F env st).effects.swap_double_buffer
          = has_flag st.effects.enabled_effects F.EFFECT_DOUBLE_BUFFER := by
  unfold draw_effects_begin
  split_ifs <;> simp [issue]


/-! ## The final framebuffer, the pyramid size and the ratio bounds -/

/-- The final framebuffer chosen by lines 539-544. -/
theorem finish_final_fb (F : EffectFlags) (env : DrawEnv) (st : EEVEE_Data) :
    (draw_effects_finish F env st).effects.final_fb =
      if st.effects.enabled_effects &&& F.EFFECT_TAA ≠ 0
          ∧ st.effects.source_buffer = st.txl.taa_history then st.fbl.taa_history_fb
      else if st.effects.target_buffer ≠ st.fbl.main_color_fb then st.fbl.main_fb
      else st.fbl.effect_fb := by
  unfold draw_effects_finish SWAP_DOUBLE_BUFFERS
  cases h1 : env.is_image_render <;> cases h2 : st.g_data.valid_double_buffer <;>
    cases h3 : has_flag st.effects.enabled_effects F.EFFECT_DOUBLE_BUFFER <;>
    cases h4 : st.effects.swap_double_buffer <;>
    cases h5 : has_flag st.effects.enabled_effects F.EFFECT_TAA <;>
    by_cases h6 : st.effects.source_buffer = st.txl.taa_history <;>
    by_cases h7 : st.effects.target_buffer = st.fbl.main_color_fb <;>
    simp [h1, h2, h3, h4, h5, h6, h7, issue, (has_flag_iff _ _).symm]

theorem provision_hiz_mip_offset (F : EffectFlags) (env : InitEnv) (st : EEVEE_Data) :
    (effects_provision F env st).common_data.hiz_mip_offset = 1 := by
  have h : (effects_provision F env st).common_data.hiz_mip_offset
      = (provision_maxz env (provision_color_post F env st)).common_data.hiz_mip_offset := by
    simp only [effects_provision, provision_taa, provision_double, provision_depth_double,
      provision_velocity, provision_normal, provision_mip_ratio]
    split_ifs <;> rfl
  rw [h]
  rfl

theorem provision_maxzbuffer (F : EffectFlags) (env : InitEnv) (st : EEVEE_Data) :
    (effects_provision F env st).txl.maxzbuffer =
      (DRW_texture_ensure_2D (provision_color_post F env st).gpu st.txl.maxzbuffer
        (max_ii (c_div env.viewport_size.1 2) 1) (max_ii (c_div env.viewport_size.2 2) 1)
        (if env.gpu_is_intel then GPUTextureFormat.GPU_R32F
          else GPUTextureFormat.GPU_DEPTH_COMPONENT24) false true).1 := by
  simp [effects_provision]

theorem half_size_eq (w : Int) :
    max_ii (c_div w 2) 1 = max 1 (Int.tdiv w 2)
      ∧ 1 ≤ max_ii (c_div w 2) 1
      ∧ (0 ≤ w → max_ii (c_div w 2) 1 = max 1 (w / 2)) := by
  have e : max_ii (c_div w 2) 1 = max 1 (Int.tdiv w 2) := by
    rw [max_ii_eq_max, max_comm]
    rfl
  refine ⟨e, ?_, ?_⟩
  · rw [e]
    exact le_max_left _ _
  · intro h
    rw [e, Int.tdiv_eq_ediv h (by decide)]

/-- The exact quotient `w / (mip_size * 2^i)` of one axis of a viewport-sized mip chain,
before it is rounded to a float. -/
theorem axis_ratio_bounds (w : Int) (hw : 1 ≤ w) (i : Nat) :
    ((2 : Int) ^ i ∣ w → (w : ℚ) / (((max 1 (w / 2 ^ i) : Int) : ℚ) * (2 : ℚ) ^ i) = 1)
      ∧ ((2 : Int) ^ i ≤ w →
          1 ≤ (w : ℚ) / (((max 1 (w / 2 ^ i) : Int) : ℚ) * (2 : ℚ) ^ i)
            ∧ (w : ℚ) / (((max 1 (w / 2 ^ i) : Int) : ℚ) * (2 : ℚ) ^ i) < 2)
      ∧ (w < (2 : Int) ^ i →
          (w : ℚ) / (((max 1 (w / 2 ^ i) : Int) : ℚ) * (2 : ℚ) ^ i) = (w : ℚ) / (2 : ℚ) ^ i
            ∧ (w : ℚ) / (((max 1 (w / 2 ^ i) : Int) : ℚ) * (2 : ℚ) ^ i) < 1) := by
  have hp : (0 : Int) < 2 ^ i := by positivity
  have hpq : (0 : ℚ) < (2 : ℚ) ^ i := by positivity
  have hwq : (0 : ℚ) < (w : ℚ) := by exact_mod_cast (by omega : (0 : Int) < w)
  have big : (2 : Int) ^ i ≤ w →
      1 ≤ w / 2 ^ i ∧ max 1 (w / 2 ^ i) = w / 2 ^ i
        ∧ (w / 2 ^ i) * 2 ^ i ≤ w ∧ w < 2 * ((w / 2 ^ i) * 2 ^ i) := by
    intro h
    have h1 : 1 ≤ w / 2 ^ i := by
      have := Int.ediv_le_ediv hp h
      rwa [Int.ediv_self (ne_of_gt hp)] at this
    have h2 : (w / 2 ^ i) * 2 ^ i ≤ w := Int.ediv_mul_le w (ne_of_gt hp)
    have h3 : w < (w / 2 ^ i + 1) * 2 ^ i := Int.lt_ediv_add_one_mul_self w hp
    refine ⟨h1, max_eq_right h1, h2, ?_⟩
    nlinarith
  have bounds : (2 : Int) ^ i ≤ w →
      1 ≤ (w : ℚ) / (((max 1 (w / 2 ^ i) : Int) : ℚ) * (2 : ℚ) ^ i)
        ∧ (w : ℚ) / (((max 1 (w / 2 ^ i) : Int) : ℚ) * (2 : ℚ) ^ i) < 2 := by
    intro h
    obtain ⟨h1, h2, h3, h4⟩ := big h
    rw [h2]
    have hq : (0 : ℚ) < ((w / 2 ^ i : Int) : ℚ) := by exact_mod_cast (by omega : (0 : Int) < w / 2 ^ i)
    have hd : (0 : ℚ) < ((w / 2 ^ i : Int) : ℚ) * (2 : ℚ) ^ i := mul_pos hq hpq
    have h3q : ((w / 2 ^ i : Int) : ℚ) * (2 : ℚ) ^ i ≤ (w : ℚ) := by exact_mod_cast h3
    have h4q : (w : ℚ) < 2 * (((w / 2 ^ i : Int) : ℚ) * (2 : ℚ) ^ i) := by exact_mod_cast h4
    constructor
    · rw [le_div_iff₀ hd]
      linarith
    · rw [div_lt_iff₀ hd]
      linarith
  refine ⟨?_, bounds, ?_⟩
  · rintro ⟨k, hk⟩
    have hkpos : 1 ≤ k := by
      by_contra hneg
      have : k ≤ 0 := by omega
      have : 2 ^ i * k ≤ 0 := Int.mul_nonpos_of_nonneg_of_nonpos (le_of_lt hp) this
      omega
    have hdiv : w / 2 ^ i = k := by
      rw [hk, Int.mul_ediv_cancel_left _ (ne_of_gt hp)]
    rw [hdiv, max_eq_right hkpos, hk]
    have hkq : (0 : ℚ) < (k : ℚ) := by exact_mod_cast (by omega : (0 : Int) < k)
    push_cast
    field_simp
    ring
  · intro h
    have hz : w / 2 ^ i = 0 := Int.ediv_eq_zero_of_lt (by omega) h
    rw [hz]
    have hlt : (w : ℚ) < (2 : ℚ) ^ i := by exact_mod_cast h
    simp only [max_eq_left (by decide : (0 : Int) ≤ 1), Int.cast_one, one_mul]
    exact ⟨trivial, (div_lt_one hpq).2 hlt⟩

/-! ## The stored entries of a viewport-sized chain -/

/-- The float 1 is exact. -/
theorem round_one : F32.round 1 = F32.fin 1 := by
  have := round_dyadic 1 0 (by norm_num) (by norm_num) (by norm_num)
  simpa using this

/-- The entry of a viewport-sized chain is the rounded exact quotient. -/
theorem chain_axis (w : Int) (hw : 1 ≤ w) (hrep : F32.of_int w = F32.fin (w : ℚ))
    (i : Nat) (hi : i ≤ 9) :
    mip_ratio_axis w (max 1 (w / 2 ^ i)) i
      = F32.round ((w : ℚ) / (((max 1 (w / 2 ^ i) : Int) : ℚ) * (2 : ℚ) ^ i)) := by
  obtain ⟨h1, h2⟩ := chain_size_exact w hw hrep i hi
  have hm1 : (1 : Int) ≤ max 1 (w / 2 ^ i) := le_max_left _ _
  have hmq : (0 : ℚ) < ((max 1 (w / 2 ^ i) : Int) : ℚ) := by
    exact_mod_cast (by omega : (0 : Int) < max 1 (w / 2 ^ i))
  have hne : ((max 1 (w / 2 ^ i) : Int) : ℚ) * (2 : ℚ) ^ i ≠ 0 :=
    mul_ne_zero (ne_of_gt hmq) (by positivity)
  unfold mip_ratio_axis
  rw [hrep, h1, h2]
  show (if ((max 1 (w / 2 ^ i) : Int) : ℚ) * (2 : ℚ) ^ i = 0 then _ else _) = _
  rw [if_neg hne]

/-- The exact quotient of a viewport-sized chain stays below `2 - 1/512` for `i ≤ 9`. -/
theorem axis_ratio_upper (w : Int) (i : Nat) (hi : i ≤ 9) (h : (2 : Int) ^ i ≤ w) :
    (w : ℚ) / (((max 1 (w / 2 ^ i) : Int) : ℚ) * (2 : ℚ) ^ i) ≤ 2 - 1 / 512 := by
  have hp : (0 : Int) < 2 ^ i := by positivity
  have hp9 : (2 : Int) ^ i ≤ 2 ^ 9 := pow_le_pow_right₀ (by norm_num) hi
  have h1 : 1 ≤ w / 2 ^ i := by
    rw [Int.le_ediv_iff_mul_le hp]
    simpa using h
  rw [max_eq_right h1]
  have hlt : w < (w / 2 ^ i + 1) * 2 ^ i := Int.lt_ediv_add_one_mul_self w hp
  generalize w / 2 ^ i = m at h1 hlt
  have hmq : (0 : ℚ) < (m : ℚ) := by exact_mod_cast (by omega : (0 : Int) < m)
  have hpq : (0 : ℚ) < (2 : ℚ) ^ i := by positivity
  rw [div_le_iff₀ (mul_pos hmq hpq)]
  have key : 512 * w ≤ 1023 * (m * 2 ^ i) := by
    have h2 : 0 ≤ (m - 1) * (2 : Int) ^ i := mul_nonneg (by omega) (le_of_lt hp)
    norm_num at hp9
    nlinarith
  have keyq : (512 : ℚ) * (w : ℚ) ≤ 1023 * ((m : ℚ) * (2 : ℚ) ^ i) := by exact_mod_cast key
  linarith

/-- The four regimes of the stored entry of a viewport-sized chain. -/
theorem chain_axis_bounds (w : Int) (hw : 1 ≤ w) (hrep : F32.of_int w = F32.fin (w : ℚ))
    (i : Nat) (hi : i ≤ 9) :
    ((2 : Int) ^ i ∣ w → mip_ratio_axis w (max 1 (w / 2 ^ i)) i = F32.fin 1)
      ∧ ((2 : Int) ^ i ≤ w →
          ∃ r : ℚ, mip_ratio_axis w (max 1 (w / 2 ^ i)) i = F32.fin r ∧ 1 ≤ r ∧ r < 2)
      ∧ (w < (2 : Int) ^ i →
          mip_ratio_axis w (max 1 (w / 2 ^ i)) i = F32.fin ((w : ℚ) / (2 : ℚ) ^ i)
            ∧ (w : ℚ) / (2 : ℚ) ^ i < 1) := by
  obtain ⟨b1, b2, b3⟩ := axis_ratio_bounds w hw i
  rw [chain_axis w hw hrep i hi]
  refine ⟨?_, ?_, ?_⟩
  · intro h
    rw [b1 h, round_one]
  · intro h
    exact round_unit_binade _ (b2 h).1 (axis_ratio_upper w i hi h)
  · intro h
    obtain ⟨e, l⟩ := b3 h
    rw [e] at l ⊢
    refine ⟨?_, l⟩
    have hp9 : (2 : Int) ^ i ≤ 2 ^ 9 := pow_le_pow_right₀ (by norm_num) hi
    have hk : |w| < 2 ^ 24 := by
      rw [abs_of_nonneg (by omega)]
      norm_num at hp9 ⊢
      omega
    have e2 : (w : ℚ) / (2 : ℚ) ^ i = (w : ℚ) * (2 : ℚ) ^ (-(i : Int)) := by
      rw [zpow_neg, zpow_natCast, div_eq_mul_inv]
    have hb : |(w : ℚ) * (2 : ℚ) ^ (-(i : Int))| < (2 : ℚ) ^ (128 : ℕ) := by
      rw [← e2, abs_of_nonneg (by positivity)]
      have : (w : ℚ) / (2 : ℚ) ^ i < 1 := l
      linarith [show (1 : ℚ) ≤ (2 : ℚ) ^ (128 : ℕ) by norm_num]
    rw [e2]
    exact round_dyadic w (-(i : Int)) hk (by omega) hb

/-- The binary32 value nearest to `135/67`. -/
theorem round_entry_three : F32.round (135 / 67) = F32.fin (4225605 / 2097152) := by
  have := round_eval (135 / 67) 1 8451210 (by norm_num [abs_of_pos]) (by norm_num [abs_of_pos])
    (by norm_num) (by norm_num [abs_lt]) (by norm_num [abs_of_pos])
  rw [this]
  norm_num

/-- The binary32 value nearest to `15/14`. -/
theorem round_entry_eight : F32.round (15 / 14) = F32.fin (4493897 / 4194304) := by
  have := round_eval (15 / 14) 0 8987794 (by norm_num [abs_of_pos]) (by norm_num [abs_of_pos])
    (by norm_num) (by norm_num [abs_lt]) (by norm_num [abs_of_pos])
  rw [this]
  norm_num

/-- The float 2 is exact. -/
theorem round_two : F32.round 2 = F32.fin 2 := by
  have := round_dyadic 1 1 (by norm_num) (by norm_num) (by norm_num)
  simpa using this

/-! ## The sample stages -/

theorem sample_stage_frame (bit : Nat) (s : EEVEE_Data) :
    (ping_pong_stage bit s).g_data = s.g_data
      ∧ (ping_pong_stage bit s).effects.enabled_effects = s.effects.enabled_effects := by
  unfold ping_pong_stage SWAP_BUFFERS SWAP_DOUBLE_BUFFERS
  split_ifs <;> exact ⟨rfl, rfl⟩

theorem sample_stage_pass_through (bit E : Nat) (h : E &&& bit = 0) (s : EEVEE_Data)
    (hs : s.effects.enabled_effects = E) : ping_pong_stage bit s = s := by
  unfold ping_pong_stage
  rw [if_neg]
  rw [hs, has_flag, h]
  decide

/-! ## Claims -/

/-- C1: for every entry state, `EEVEE_effects_init` leaves in `enabled_effects` exactly
the bitwise OR of `EFFECT_VELOCITY_BUFFER` when the debug value is 9, the values
returned by the eight effect-module init functions, and `EFFECT_NORMAL_BUFFER` when an
image render is running and the pass flags request a normal pass; two entry states,
whatever they held before (including an unallocated `stl->effects`), give the same
result. -/
theorem C1_enabled_effects_is_or_of_contributions (F : EffectFlags) (env : InitEnv)
    (vedata other : EEVEE_DataEntry) :
    (EEVEE_effects_init F env vedata).effects.enabled_effects =
        (if env.debug_value = 9 then F.EFFECT_VELOCITY_BUFFER else 0)
          ||| env.motion_blur_init ||| env.bloom_init ||| env.depth_of_field_init
          ||| env.temporal_sampling_init ||| env.occlusion_init ||| env.subsurface_init
          ||| env.screen_raytrace_init ||| env.volumes_init
          ||| (if env.is_image_render = true ∧ env.passflag &&& F.SCE_PASS_NORMAL ≠ 0
                then F.EFFECT_NORMAL_BUFFER else 0)
      ∧ (EEVEE_effects_init F env other).effects.enabled_effects =
          (EEVEE_effects_init F env vedata).effects.enabled_effects := by
  have key : ∀ v : EEVEE_DataEntry, (EEVEE_effects_init F env v).effects.enabled_effects =
      (effects_resolve F env (effects_ensure v).effects).enabled_effects := by
    intro v
    unfold EEVEE_effects_init
    exact provision_enabled F env _
  rw [key vedata, key other, resolve_enabled, resolve_enabled]
  exact ⟨rfl, rfl⟩

/-- C2: after `EEVEE_effects_init`, and after a provisioning with any effect set `E` from
any prior buffer state, each effect-gated persistent buffer is present (its texture and
all its framebuffers non-null) exactly when its gate holds for the enabled effects and
is freed (all null) exactly when it does not; the gates are `EFFECT_POST_BUFFER` for
`color_post`, `EFFECT_DEPTH_DOUBLE_BUFFER` for `depth_double_buffer`,
`EFFECT_DOUBLE_BUFFER` for `color_double_buffer`, and `EFFECT_TAA` or
`EFFECT_TAA_REPROJECT` for `taa_history`. -/
theorem C2_gated_buffer_present_iff_bit (F : EffectFlags) (env : InitEnv)
    (vedata : EEVEE_DataEntry) (E : Nat) (st : EEVEE_Data) (b : GatedBuffer) :
    b.present (EEVEE_effects_init F env vedata)
        = b.gate F (EEVEE_effects_init F env vedata).effects.enabled_effects
      ∧ b.freed (EEVEE_effects_init F env vedata)
        = !b.gate F (EEVEE_effects_init F env vedata).effects.enabled_effects
      ∧ b.present (apply_effect_set F env E st) = b.gate F E
      ∧ b.freed (apply_effect_set F env E st) = !b.gate F E
      ∧ (GatedBuffer.color_post.gate F (EEVEE_effects_init F env vedata).effects.enabled_effects
          = true ↔
        (EEVEE_effects_init F env vedata).effects.enabled_effects &&& F.EFFECT_POST_BUFFER ≠ 0)
      ∧ (GatedBuffer.depth_double_buffer.gate F
          (EEVEE_effects_init F env vedata).effects.enabled_effects = true ↔
        (EEVEE_effects_init F env vedata).effects.enabled_effects
          &&& F.EFFECT_DEPTH_DOUBLE_BUFFER ≠ 0)
      ∧ (GatedBuffer.color_double_buffer.gate F
          (EEVEE_effects_init F env vedata).effects.enabled_effects = true ↔
        (EEVEE_effects_init F env vedata).effects.enabled_effects &&& F.EFFECT_DOUBLE_BUFFER ≠ 0)
      ∧ (GatedBuffer.taa_history.gate F
          (EEVEE_effects_init F env vedata).effects.enabled_effects = true ↔
        ((EEVEE_effects_init F env vedata).effects.enabled_effects &&& F.EFFECT_TAA ≠ 0
          ∨ (EEVEE_effects_init F env vedata).effects.enabled_effects
            &&& F.EFFECT_TAA_REPROJECT ≠ 0)) := by
  have hS := provision_settled F env
    { effects_ensure vedata with effects := effects_resolve F env (effects_ensure vedata).effects }
  have hE := provision_enabled F env
    { effects_ensure vedata with effects := effects_resolve F env (effects_ensure vedata).effects }
  have hS2 := provision_settled F env
    { st with effects := { st.effects with enabled_effects := E } }
  refine ⟨?_, ?_, (hS2.1 b).1, (hS2.1 b).2, ?_, ?_, ?_, gate_taa_iff F _⟩
  · rw [show EEVEE_effects_init F env vedata = effects_provision F env
      { effects_ensure vedata with effects := effects_resolve F env (effects_ensure vedata).effects }
      from rfl, hE]
    exact (hS.1 b).1
  · rw [show EEVEE_effects_init F env vedata = effects_provision F env
      { effects_ensure vedata with effects := effects_resolve F env (effects_ensure vedata).effects }
      from rfl, hE]
    exact (hS.1 b).2
  · exact has_flag_iff _ _
  · exact has_flag_iff _ _
  · exact has_flag_iff _ _

/-- C3: running the buffer provisioning twice in a row with the same effect set `E`
reallocates nothing: the owned textures, the owned framebuffers and the GPU name
counters after the second run are those after the first run, whatever the texture pool
hands out in the second run; the same holds for two consecutive calls of
`EEVEE_effects_init` in the same environment. -/
theorem C3_provisioning_twice_reallocates_nothing (F : EffectFlags) (env env2 : InitEnv) (E : Nat)
    (st : EEVEE_Data) (vedata : EEVEE_DataEntry) :
    ((apply_effect_set F env2 E (apply_effect_set F env E st)).txl
        = (apply_effect_set F env E st).txl
      ∧ (apply_effect_set F env2 E (apply_effect_set F env E st)).fbl
        = (apply_effect_set F env E st).fbl
      ∧ (apply_effect_set F env2 E (apply_effect_set F env E st)).gpu
        = (apply_effect_set F env E st).gpu)
    ∧ ((EEVEE_effects_init F env (EEVEE_effects_init F env vedata).reenter).txl
        = (EEVEE_effects_init F env vedata).txl
      ∧ (EEVEE_effects_init F env (EEVEE_effects_init F env vedata).reenter).fbl
        = (EEVEE_effects_init F env vedata).fbl
      ∧ (EEVEE_effects_init F env (EEVEE_effects_init F env vedata).reenter).gpu
        = (EEVEE_effects_init F env vedata).gpu) := by
  constructor
  · have hS := provision_settled F env { st with effects := { st.effects with enabled_effects := E } }
    have hE := provision_enabled F env { st with effects := { st.effects with enabled_effects := E } }
    have hk := provision_keeps F env2
      { apply_effect_set F env E st with
        effects := { (apply_effect_set F env E st).effects with enabled_effects := E } } hS
    exact ⟨hk.1, hk.2.1, hk.2.2.1⟩
  · have hS := provision_settled F env
      { effects_ensure vedata with effects := effects_resolve F env (effects_ensure vedata).effects }
    have hk := provision_keeps F env
      { effects_ensure (EEVEE_effects_init F env vedata).reenter with
        effects := effects_resolve F env
          (effects_ensure (EEVEE_effects_init F env vedata).reenter).effects }
      (by
        have e : (effects_resolve F env
            (effects_ensure (EEVEE_effects_init F env vedata).reenter).effects).enabled_effects
            = (effects_resolve F env (effects_ensure vedata).effects).enabled_effects := by
          rw [resolve_enabled, resolve_enabled]
        show Settled F (effects_resolve F env _).enabled_effects _ _
        rw [e]
        exact hS)
    exact ⟨hk.1, hk.2.1, hk.2.2.1⟩

/-- C4 (amended): when `E1` and `E2` differ exactly in `B` (one bit, or any set of bits),
provisioning with `E2` after `E1` treats every gated buffer according to its gate, the
test of lines 193, 267, 283 and 290: a buffer whose flag word is disjoint from `B` has
the same gate under both sets; a buffer whose gate turns from false to true is
allocated; one whose gate turns from true to false is freed; one whose gate keeps its
value keeps its texture and framebuffer handles. The pyramid texture, the scratch
framebuffer, the colour buffer and the main framebuffers keep their handles; the
velocity framebuffer is never freed, is left alone when the velocity buffer is disabled
in `E2`, and exists whenever the velocity buffer is enabled in `E2`; and `taa_history`
keeps its handles whenever one of `EFFECT_TAA` and `EFFECT_TAA_REPROJECT` is set in both
`E1` and `E2`, whatever happens to the other. -/
theorem C4_gate_change_accounts_for_every_buffer (F : EffectFlags) (env env2 : InitEnv)
    (E1 E2 B : Nat) (st : EEVEE_Data) (hB : E1 ^^^ E2 = B) (b : GatedBuffer) :
    (b.flags F &&& B = 0 → b.gate F E1 = b.gate F E2)
      ∧ (b.gate F E1 = false → b.gate F E2 = true →
          b.freed (apply_effect_set F env E1 st) = true
            ∧ b.present (apply_effect_set F env2 E2 (apply_effect_set F env E1 st)) = true)
      ∧ (b.gate F E1 = true → b.gate F E2 = false →
          b.present (apply_effect_set F env E1 st) = true
            ∧ b.freed (apply_effect_set F env2 E2 (apply_effect_set F env E1 st)) = true)
      ∧ (b.gate F E1 = b.gate F E2 →
          b.texture (apply_effect_set F env2 E2 (apply_effect_set F env E1 st)).txl
              = b.texture (apply_effect_set F env E1 st).txl
            ∧ b.framebuffers (apply_effect_set F env2 E2 (apply_effect_set F env E1 st)).fbl
              = b.framebuffers (apply_effect_set F env E1 st).fbl)
      ∧ (apply_effect_set F env2 E2 (apply_effect_set F env E1 st)).txl.maxzbuffer
          = (apply_effect_set F env E1 st).txl.maxzbuffer
      ∧ (apply_effect_set F env2 E2 (apply_effect_set F env E1 st)).fbl.downsample_fb
          = (apply_effect_set F env E1 st).fbl.downsample_fb
      ∧ (apply_effect_set F env2 E2 (apply_effect_set F env E1 st)).txl.color
          = (apply_effect_set F env E1 st).txl.color
      ∧ (apply_effect_set F env2 E2 (apply_effect_set F env E1 st)).fbl.main_fb
          = (apply_effect_set F env E1 st).fbl.main_fb
      ∧ (apply_effect_set F env2 E2 (apply_effect_set F env E1 st)).fbl.main_color_fb
          = (apply_effect_set F env E1 st).fbl.main_color_fb
      ∧ ((apply_effect_set F env E1 st).fbl.velocity_resolve_fb.isSome = true
            ∨ has_flag E2 F.EFFECT_VELOCITY_BUFFER = false →
          (apply_effect_set F env2 E2 (apply_effect_set F env E1 st)).fbl.velocity_resolve_fb
            = (apply_effect_set F env E1 st).fbl.velocity_resolve_fb)
      ∧ (has_flag E2 F.EFFECT_VELOCITY_BUFFER = true →
          (apply_effect_set F env2 E2
            (apply_effect_set F env E1 st)).fbl.velocity_resolve_fb.isSome = true)
      ∧ ((E1 &&& F.EFFECT_TAA_REPROJECT ≠ 0 ∧ E2 &&& F.EFFECT_TAA_REPROJECT ≠ 0)
            ∨ (E1 &&& F.EFFECT_TAA ≠ 0 ∧ E2 &&& F.EFFECT_TAA ≠ 0) →
          (apply_effect_set F env2 E2 (apply_effect_set F env E1 st)).txl.taa_history
              = (apply_effect_set F env E1 st).txl.taa_history
            ∧ (apply_effect_set F env2 E2 (apply_effect_set F env E1 st)).fbl.taa_history_fb
              = (apply_effect_set F env E1 st).fbl.taa_history_fb
            ∧ (apply_effect_set F env2 E2
                (apply_effect_set F env E1 st)).fbl.taa_history_color_fb
              = (apply_effect_set F env E1 st).fbl.taa_history_color_fb) := by
  have hS1 := provision_settled F env
    { st with effects := { st.effects with enabled_effects := E1 } }
  have hS2 := provision_settled F env2
    { apply_effect_set F env E1 st with
      effects := { (apply_effect_set F env E1 st).effects with enabled_effects := E2 } }
  have hU := provision_untouched F env2
    { apply_effect_set F env E1 st with
      effects := { (apply_effect_set F env E1 st).effects with enabled_effects := E2 } }
  have hC := provision_unconditional_stable F env2
    { apply_effect_set F env E1 st with
      effects := { (apply_effect_set F env E1 st).effects with enabled_effects := E2 } }
  have hb1 := hS1.1 b
  have hb2 := hS2.1 b
  have stable : ∀ c : GatedBuffer, c.gate F E1 = c.gate F E2 →
      c.texture (apply_effect_set F env2 E2 (apply_effect_set F env E1 st)).txl
          = c.texture (apply_effect_set F env E1 st).txl
        ∧ c.framebuffers (apply_effect_set F env2 E2 (apply_effect_set F env E1 st)).fbl
          = c.framebuffers (apply_effect_set F env E1 st).fbl := by
    intro c hg
    have hc := hS1.1 c
    apply provision_buffer_stable F env2
      { apply_effect_set F env E1 st with
        effects := { (apply_effect_set F env E1 st).effects with enabled_effects := E2 } } c
    by_cases g2 : c.gate F E2 = true
    · left
      exact ⟨g2, by rw [GatedBuffer.present]; exact hc.1.trans (by simp [hg, g2])⟩
    · have g3 : c.gate F E2 = false := by simpa using g2
      right
      exact ⟨g3, by rw [GatedBuffer.freed]; exact hc.2.trans (by simp [hg, g3])⟩
  refine ⟨gate_eq_of_disjoint F b E1 E2 B hB, ?_, ?_, stable b, hC.1 hS1.2.1, hC.2.1 hS1.2.2.1,
    hU.1, hU.2.1, hU.2.2, ?_, hC.2.2.2.2, ?_⟩
  · intro g1 g2
    exact ⟨by rw [GatedBuffer.freed]; exact hb1.2.trans (by simp [g1]),
      by rw [GatedBuffer.present]; exact hb2.1.trans g2⟩
  · intro g1 g2
    exact ⟨by rw [GatedBuffer.present]; exact hb1.1.trans g1,
      by rw [GatedBuffer.freed]; exact hb2.2.trans (by simp [g2])⟩
  · rintro (h | h)
    · exact hC.2.2.1 h
    · exact hC.2.2.2.1 h
  · intro h
    have g1 : GatedBuffer.taa_history.gate F E1 = true :=
      (gate_taa_iff F E1).2 (h.elim (fun x => Or.inr x.1) (fun x => Or.inl x.1))
    have g2 : GatedBuffer.taa_history.gate F E2 = true :=
      (gate_taa_iff F E2).2 (h.elim (fun x => Or.inr x.2) (fun x => Or.inl x.2))
    have hs := stable GatedBuffer.taa_history (g1.trans g2.symm)
    simp only [GatedBuffer.texture, GatedBuffer.framebuffers, List.cons.injEq, and_true] at hs
    exact ⟨hs.1, hs.2.1, hs.2.2⟩

/-- The amended C4 at the sample data: enabling `EFFECT_POST_BUFFER` (bit 512) from the
empty effect set allocates `color_post`, which was freed before. -/
theorem C4_gate_change_accounts_for_every_buffer_witness :
    ((0 : Nat) ^^^ 512 = 512)
      ∧ GatedBuffer.color_post.freed (apply_effect_set sample_flags sample_env 0 sample_data)
          = true
      ∧ GatedBuffer.color_post.present
          (apply_effect_set sample_flags sample_env 512
            (apply_effect_set sample_flags sample_env 0 sample_data)) = true :=
  ⟨by decide,
    (C4_gate_change_accounts_for_every_buffer sample_flags sample_env sample_env 0 512 512
      sample_data (by decide) GatedBuffer.color_post).2.1 (by decide) (by decide)⟩

/-- C4 (counterexample): with the sample flag values, `E1 = TAA | TAA_REPROJECT` and
`E2 = TAA_REPROJECT` differ only in the `EFFECT_TAA` bit, which goes from 1 to 0, yet
`taa_history`, a buffer governed by that bit, is not freed: it keeps the texture it had
after the provisioning with `E1`. -/
theorem C4_taa_history_kept_when_taa_bit_clears :
    sample_flags.EFFECT_TAA = 2 ^ 8
      ∧ (sample_flags.EFFECT_TAA ||| sample_flags.EFFECT_TAA_REPROJECT)
        ^^^ sample_flags.EFFECT_TAA_REPROJECT = sample_flags.EFFECT_TAA
      ∧ has_flag (sample_flags.EFFECT_TAA ||| sample_flags.EFFECT_TAA_REPROJECT)
          sample_flags.EFFECT_TAA = true
      ∧ has_flag sample_flags.EFFECT_TAA_REPROJECT sample_flags.EFFECT_TAA = false
      ∧ (apply_effect_set sample_flags sample_env
          (sample_flags.EFFECT_TAA ||| sample_flags.EFFECT_TAA_REPROJECT)
          sample_data).txl.taa_history
          = some ⟨2, 1920, 1080, GPUTextureFormat.GPU_RGBA16F, true, true⟩
      ∧ (apply_effect_set sample_flags sample_env sample_flags.EFFECT_TAA_REPROJECT
          (apply_effect_set sample_flags sample_env
            (sample_flags.EFFECT_TAA ||| sample_flags.EFFECT_TAA_REPROJECT)
            sample_data)).txl.taa_history
          = some ⟨2, 1920, 1080, GPUTextureFormat.GPU_RGBA16F, true, true⟩
      ∧ GatedBuffer.taa_history.freed
          (apply_effect_set sample_flags sample_env sample_flags.EFFECT_TAA_REPROJECT
            (apply_effect_set sample_flags sample_env
              (sample_flags.EFFECT_TAA ||| sample_flags.EFFECT_TAA_REPROJECT)
              sample_data)) = false := by
  refine ⟨by decide, by decide, by decide, by decide, by decide, by decide, by decide⟩

/-- C5 (amended): for every viewport size and every mip level `i` from 0 to 9,
`EEVEE_effects_init` sets `mip_ratio[i]` on each axis to the binary32 value of
`viewport_size / (mip_size(i) * powf(2.0f, i))`, where `mip_size(i)` is what the GPU
module reports for level `i` of the colour buffer and the product and the quotient are
float operations. When the viewport size and the mip size are below `2^24` in magnitude
and the mip size is not zero, the entry is the exact quotient
`viewport_size / (mip_size(i) * 2^i)` rounded to the nearest binary32 value, ties to
even; a zero mip size under a positive viewport size below `2^24` gives `+infinity`. For
the viewport `(1920, 1080)`, a top level of `(960, 540)` and a level 1 of `(480, 270)`
this gives `ratio[0] = (2, 2)` and `ratio[1] = (2, 2)`. -/
theorem C5_mip_ratio_is_rounded_quotient (F : EffectFlags) (env : InitEnv)
    (vedata : EEVEE_DataEntry) :
    (∀ i : Fin 10, (EEVEE_effects_init F env vedata).common_data.mip_ratio i =
      (F32.div (F32.of_int env.viewport_size.1)
          (F32.mul (F32.of_int (env.GPU_texture_get_mipmap_size vedata.txl.color i.val).1)
            (powf_two i.val)),
        F32.div (F32.of_int env.viewport_size.2)
          (F32.mul (F32.of_int (env.GPU_texture_get_mipmap_size vedata.txl.color i.val).2)
            (powf_two i.val))))
    ∧ (∀ i : Fin 10, |env.viewport_size.1| < 2 ^ 24 →
        |(env.GPU_texture_get_mipmap_size vedata.txl.color i.val).1| < 2 ^ 24 →
        (env.GPU_texture_get_mipmap_size vedata.txl.color i.val).1 ≠ 0 →
        ((EEVEE_effects_init F env vedata).common_data.mip_ratio i).1 =
          F32.round ((env.viewport_size.1 : ℚ)
            / (((env.GPU_texture_get_mipmap_size vedata.txl.color i.val).1 : ℚ)
              * (2 : ℚ) ^ i.val)))
    ∧ (∀ i : Fin 10, |env.viewport_size.2| < 2 ^ 24 →
        |(env.GPU_texture_get_mipmap_size vedata.txl.color i.val).2| < 2 ^ 24 →
        (env.GPU_texture_get_mipmap_size vedata.txl.color i.val).2 ≠ 0 →
        ((EEVEE_effects_init F env vedata).common_data.mip_ratio i).2 =
          F32.round ((env.viewport_size.2 : ℚ)
            / (((env.GPU_texture_get_mipmap_size vedata.txl.color i.val).2 : ℚ)
              * (2 : ℚ) ^ i.val)))
    ∧ (∀ i : Fin 10, 0 < env.viewport_size.1 → env.viewport_size.1 < 2 ^ 24 →
        (env.GPU_texture_get_mipmap_size vedata.txl.color i.val).1 = 0 →
        ((EEVEE_effects_init F env vedata).common_data.mip_ratio i).1 = F32.inf false)
    ∧ (∀ i : Fin 10, 0 < env.viewport_size.2 → env.viewport_size.2 < 2 ^ 24 →
        (env.GPU_texture_get_mipmap_size vedata.txl.color i.val).2 = 0 →
        ((EEVEE_effects_init F env vedata).common_data.mip_ratio i).2 = F32.inf false)
    ∧ (env.viewport_size = (1920, 1080) →
        env.GPU_texture_get_mipmap_size vedata.txl.color 0 = (960, 540) →
        env.GPU_texture_get_mipmap_size vedata.txl.color 1 = (480, 270) →
        (EEVEE_effects_init F env vedata).common_data.mip_ratio 0 = (F32.fin 2, F32.fin 2)
          ∧ (EEVEE_effects_init F env vedata).common_data.mip_ratio 1
            = (F32.fin 2, F32.fin 2)) := by
  have hi : ∀ i : Fin 10, i.val ≤ 9 := fun i => by omega
  refine ⟨fun i => init_mip_ratio_eq F env vedata i, ?_, ?_, ?_, ?_, ?_⟩
  · intro i hv hm hm0
    rw [init_mip_ratio_eq]
    exact mip_ratio_axis_round _ _ _ hv hm0 hm (hi i)
  · intro i hv hm hm0
    rw [init_mip_ratio_eq]
    exact mip_ratio_axis_round _ _ _ hv hm0 hm (hi i)
  · intro i hv0 hv hm
    rw [init_mip_ratio_eq]
    simp only [hm]
    exact mip_ratio_axis_zero _ _ hv0 (by rw [abs_of_pos hv0]; exact hv) (hi i)
  · intro i hv0 hv hm
    rw [init_mip_ratio_eq]
    simp only [hm]
    exact mip_ratio_axis_zero _ _ hv0 (by rw [abs_of_pos hv0]; exact hv) (hi i)
  · intro hv h0 h1
    rw [init_mip_ratio_eq, init_mip_ratio_eq]
    simp only [Fin.val_zero, Fin.val_one, h0, h1, hv]
    rw [mip_ratio_axis_round 1920 960 0 (by norm_num) (by norm_num) (by norm_num) (by norm_num),
      mip_ratio_axis_round 1080 540 0 (by norm_num) (by norm_num) (by norm_num) (by norm_num),
      mip_ratio_axis_round 1920 480 1 (by norm_num) (by norm_num) (by norm_num) (by norm_num),
      mip_ratio_axis_round 1080 270 1 (by norm_num) (by norm_num) (by norm_num) (by norm_num)]
    norm_num [round_two]

/-- C5 (amended) at the sample environment with the half-resolution colour buffer, whose
mip chain is 960x540, 480x270, 240x135, 120x67: the first two entries are `(2, 2)` and
the second axis of entry 3 is the rounded `1080 / (67 * 2^3)`. -/
theorem C5_mip_ratio_is_rounded_quotient_witness :
    (sample_env_query.viewport_size = (1920, 1080)
      ∧ sample_env_query.GPU_texture_get_mipmap_size sample_entry_halfres.txl.color 0
        = (960, 540)
      ∧ sample_env_query.GPU_texture_get_mipmap_size sample_entry_halfres.txl.color 1
        = (480, 270)
      ∧ sample_env_query.GPU_texture_get_mipmap_size sample_entry_halfres.txl.color 3
        = (120, 67))
    ∧ (EEVEE_effects_init sample_flags sample_env_query
        sample_entry_halfres).common_data.mip_ratio 0 = (F32.fin 2, F32.fin 2)
    ∧ (EEVEE_effects_init sample_flags sample_env_query
        sample_entry_halfres).common_data.mip_ratio 1 = (F32.fin 2, F32.fin 2)
    ∧ ((EEVEE_effects_init sample_flags sample_env_query
        sample_entry_halfres).common_data.mip_ratio 3).2
          = F32.round ((1080 : ℚ) / ((67 : ℚ) * (2 : ℚ) ^ 3)) :=
  ⟨⟨by decide, by decide, by decide, by decide⟩,
    ((C5_mip_ratio_is_rounded_quotient sample_flags sample_env_query
      sample_entry_halfres).2.2.2.2.2 (by decide) (by decide) (by decide)).1,
    ((C5_mip_ratio_is_rounded_quotient sample_flags sample_env_query
      sample_entry_halfres).2.2.2.2.2 (by decide) (by decide) (by decide)).2,
    (C5_mip_ratio_is_rounded_quotient sample_flags sample_env_query
      sample_entry_halfres).2.2.1 3 (by decide) (by decide) (by decide)⟩

/-- C5 (counterexample): at entry 3 of the half-resolution chain of a 1920x1080 viewport
mip level 3 is 120x67, the exact quotient on the second axis is
`1080 / (67 * 2^3) = 135/67`, which is no binary32 value, and the entry that
`EEVEE_effects_init` stores is the float `4225605/2097152`. -/
theorem C5_entry_three_is_not_the_quotient :
    sample_env_query.viewport_size = (1920, 1080)
      ∧ sample_env_query.GPU_texture_get_mipmap_size sample_entry_halfres.txl.color 3
        = (120, 67)
      ∧ ((EEVEE_effects_init sample_flags sample_env_query
          sample_entry_halfres).common_data.mip_ratio 3).2 = F32.fin (4225605 / 2097152)
      ∧ ((EEVEE_effects_init sample_flags sample_env_query
          sample_entry_halfres).common_data.mip_ratio 3).2
        ≠ F32.fin ((1080 : ℚ) / ((67 : ℚ) * (2 : ℚ) ^ 3)) := by
  have h : ((EEVEE_effects_init sample_flags sample_env_query
      sample_entry_halfres).common_data.mip_ratio 3).2 = F32.fin (4225605 / 2097152) := by
    rw [init_mip_ratio_eq]
    show mip_ratio_axis 1080 67 3 = _
    rw [mip_ratio_axis_round 1080 67 3 (by norm_num) (by norm_num) (by norm_num) (by norm_num)]
    norm_num [round_entry_three]
  refine ⟨by decide, by decide, h, ?_⟩
  rw [h]
  intro e
  injection e with e
  norm_num at e

/-- C6: for every source texture and every maximum level, `EEVEE_downsample_buffer`
attaches the texture, then for each level `L` from 1 to the smaller of the maximum level
and the mip count of the texture, in increasing order, rebinds the framebuffer to the
size of level `L` and runs the callback (the draw of `color_downsample_ps`) once, then
detaches; the size of level `L` is half the size of level `L - 1` rounded down, at least
1 on each axis; on an 8x8 source whose mip chain has at least three levels and a maximum
level of 3 the callback runs exactly three times, at sizes 4x4, 2x2 and 1x1 in that
order. -/
theorem C6_downsample_levels_in_order (mip_count : GPUTexture → Nat) (st : EEVEE_Data)
    (t : GPUTexture) (level : Int) :
    (EEVEE_downsample_buffer mip_count st (some t) level).calls
        = st.calls ++ [DRWCall.framebuffer_texture_attach st.fbl.downsample_fb (some t)]
          ++ (List.range' 1 (min level.toNat (mip_count t))).flatMap
            (level_calls t Pass.color_downsample_ps)
          ++ [DRWCall.framebuffer_texture_detach st.fbl.downsample_fb (some t)]
      ∧ (∀ L : Nat, level_calls t Pass.color_downsample_ps L
          = [DRWCall.mip_bind L (mip_dim t L).1 (mip_dim t L).2,
              DRWCall.draw_pass Pass.color_downsample_ps])
      ∧ mip_dim t 0 = (t.w, t.h)
      ∧ (∀ L : Nat, mip_dim t (L + 1)
          = (max ((mip_dim t L).1 / 2) 1, max ((mip_dim t L).2 / 2) 1))
      ∧ (t.w = 8 → t.h = 8 → level = 3 → 3 ≤ mip_count t →
          (EEVEE_downsample_buffer mip_count st (some t) level).calls
            = st.calls ++ [DRWCall.framebuffer_texture_attach st.fbl.downsample_fb (some t),
                DRWCall.mip_bind 1 4 4, DRWCall.draw_pass Pass.color_downsample_ps,
                DRWCall.mip_bind 2 2 2, DRWCall.draw_pass Pass.color_downsample_ps,
                DRWCall.mip_bind 3 1 1, DRWCall.draw_pass Pass.color_downsample_ps,
                DRWCall.framebuffer_texture_detach st.fbl.downsample_fb (some t)]) := by
  have main : (EEVEE_downsample_buffer mip_count st (some t) level).calls
        = st.calls ++ [DRWCall.framebuffer_texture_attach st.fbl.downsample_fb (some t)]
          ++ (List.range' 1 (min level.toNat (mip_count t))).flatMap
            (level_calls t Pass.color_downsample_ps)
          ++ [DRWCall.framebuffer_texture_detach st.fbl.downsample_fb (some t)] := by
    unfold EEVEE_downsample_buffer
    simp only [issue]
    rw [recursive_downsample_calls mip_count Pass.color_downsample_ps simple_downsample_cb
      simple_cb_calls,
      (recursive_downsample_frame mip_count simple_downsample_cb (fun _ _ => ⟨rfl, rfl⟩) _ _ _).1]
  refine ⟨main, fun _ => rfl, rfl, ?_, ?_⟩
  · intro L
    simp [mip_dim, next_mip_dim, max_ii_eq_max]
  · intro hw hh hl hm
    rw [main, hl]
    have : min (3 : Int).toNat (mip_count t) = 3 := by
      simp; omega
    rw [this]
    simp [List.range', level_calls, mip_dim, next_mip_dim, max_ii, hw, hh]

/-- The example of C6 on an 8x8 texture with three mip levels below the top. -/
theorem C6_downsample_levels_in_order_witness :
    ((8 : Int) = 8 ∧ (3 : Int) = 3 ∧ 3 ≤ (fun _ : GPUTexture => 3)
        ⟨1, 8, 8, GPUTextureFormat.GPU_RGBA16F, true, true⟩)
      ∧ (EEVEE_downsample_buffer (fun _ => 3) (sample_frame 0)
          (some ⟨1, 8, 8, GPUTextureFormat.GPU_RGBA16F, true, true⟩) 3).calls
        = (sample_frame 0).calls
          ++ [DRWCall.framebuffer_texture_attach (sample_frame 0).fbl.downsample_fb
                (some ⟨1, 8, 8, GPUTextureFormat.GPU_RGBA16F, true, true⟩),
              DRWCall.mip_bind 1 4 4, DRWCall.draw_pass Pass.color_downsample_ps,
              DRWCall.mip_bind 2 2 2, DRWCall.draw_pass Pass.color_downsample_ps,
              DRWCall.mip_bind 3 1 1, DRWCall.draw_pass Pass.color_downsample_ps,
              DRWCall.framebuffer_texture_detach (sample_frame 0).fbl.downsample_fb
                (some ⟨1, 8, 8, GPUTextureFormat.GPU_RGBA16F, true, true⟩)] :=
  ⟨⟨rfl, rfl, by decide⟩,
    (C6_downsample_levels_in_order (fun _ => 3) (sample_frame 0)
      ⟨1, 8, 8, GPUTextureFormat.GPU_RGBA16F, true, true⟩ 3).2.2.2.2 rfl rfl rfl (by decide)⟩

/-- C7: for every depth source and layer index, among the calls issued by
`EEVEE_create_minmax_buffer` exactly one draws a top-level pass `p`: it is a direct-copy
pass (`maxz_copydepth`) if and only if the mip 0 width and height of the pyramid equal
those of the depth source, a reduce pass (`maxz_downdepth`) otherwise, and a layered
variant if and only if `layer >= 0`; every other draw is the per-level pass of the
recursive downsample. -/
theorem C7_minmax_top_level_pass (get_mipmap_size : Option GPUTexture → Nat → Int × Int)
    (mip_count : GPUTexture → Nat) (st : EEVEE_Data) (depth_src : Option GPUTexture)
    (layer : Int) :
    ∃ p : Pass,
      top_level_draws
          ((EEVEE_create_minmax_buffer get_mipmap_size mip_count st depth_src layer).calls.drop
            st.calls.length) = [p]
        ∧ (p.is_copydepth = true ↔
            (get_mipmap_size st.txl.maxzbuffer 0).1 = (get_mipmap_size depth_src 0).1
              ∧ (get_mipmap_size st.txl.maxzbuffer 0).2 = (get_mipmap_size depth_src 0).2)
        ∧ (p.is_downdepth = true ↔
            ¬ ((get_mipmap_size st.txl.maxzbuffer 0).1 = (get_mipmap_size depth_src 0).1
              ∧ (get_mipmap_size st.txl.maxzbuffer 0).2 = (get_mipmap_size depth_src 0).2))
        ∧ (p.is_layered = true ↔ layer ≥ 0)
        ∧ (EEVEE_create_minmax_buffer get_mipmap_size mip_count st depth_src layer).calls
          = st.calls
            ++ [DRWCall.framebuffer_texture_attach st.fbl.downsample_fb st.txl.maxzbuffer,
                DRWCall.framebuffer_bind st.fbl.downsample_fb, DRWCall.draw_pass p]
            ++ (match st.txl.maxzbuffer with
                | some t => (List.range' 1 (min 8 (mip_count t))).flatMap
                    (level_calls t Pass.maxz_downlevel_ps)
                | none => [])
            ++ [DRWCall.framebuffer_texture_detach st.fbl.downsample_fb st.txl.maxzbuffer,
                DRWCall.framebuffer_bind st.fbl.main_fb] := by
  refine ⟨_, ?_, ?_, ?_, ?_, minmax_calls get_mipmap_size mip_count st depth_src layer⟩
  · rw [minmax_calls]
    simp only [List.append_assoc, List.drop_left]
    rw [top_level_draws_append, top_level_draws_append]
    have hlev : top_level_draws (match st.txl.maxzbuffer with
        | some t => (List.range' 1 (min 8 (mip_count t))).flatMap
            (level_calls t Pass.maxz_downlevel_ps)
        | none => []) = [] := by
      cases st.txl.maxzbuffer with
      | none => rfl
      | some t => exact top_level_draws_levels t _
    rw [hlev]
    by_cases hl : layer ≥ 0 <;>
      by_cases hf : ((get_mipmap_size st.txl.maxzbuffer 0).1 = (get_mipmap_size depth_src 0).1
        ∧ (get_mipmap_size st.txl.maxzbuffer 0).2 = (get_mipmap_size depth_src 0).2) <;>
      simp [hl, hf, top_level_draws, Pass.is_top_level]
  · by_cases hl : layer ≥ 0 <;>
      by_cases hf : ((get_mipmap_size st.txl.maxzbuffer 0).1 = (get_mipmap_size depth_src 0).1
        ∧ (get_mipmap_size st.txl.maxzbuffer 0).2 = (get_mipmap_size depth_src 0).2) <;>
      simp [hl, hf, Pass.is_copydepth]
  · by_cases hl : layer ≥ 0 <;>
      by_cases hf : ((get_mipmap_size st.txl.maxzbuffer 0).1 = (get_mipmap_size depth_src 0).1
        ∧ (get_mipmap_size st.txl.maxzbuffer 0).2 = (get_mipmap_size depth_src 0).2) <;>
      simp [hl, hf, Pass.is_downdepth]
  · by_cases hl : layer ≥ 0 <;>
      by_cases hf : ((get_mipmap_size st.txl.maxzbuffer 0).1 = (get_mipmap_size depth_src 0).1
        ∧ (get_mipmap_size st.txl.maxzbuffer 0).2 = (get_mipmap_size depth_src 0).2) <;>
      simp [hl, hf, Pass.is_layered]

/-- C8: when the enabled effects are exactly `EFFECT_DOUBLE_BUFFER` (a non-zero flag)
and every stage of the stack is a pass-through for that effect set, `EEVEE_draw_effects`
leaves `final_tx` equal to the colour buffer on entry and swaps the double buffer exactly
once: the colour texture and the main framebuffers after the call are the double buffer
ones from before the call and vice versa, nothing else in the texture and framebuffer
lists changes, and no swap is left pending. -/
theorem C8_double_buffer_only_swaps_once (F : EffectFlags) (S : EffectStages) (env : DrawEnv)
    (st : EEVEE_Data) (hE : st.effects.enabled_effects = F.EFFECT_DOUBLE_BUFFER)
    (hbit : F.EFFECT_DOUBLE_BUFFER ≠ 0)
    (hpass : ∀ s : EEVEE_Data, s.effects.enabled_effects = F.EFFECT_DOUBLE_BUFFER →
      S.motion_blur_draw s = s ∧ S.depth_of_field_draw s = s
        ∧ S.temporal_sampling_draw s = s ∧ S.bloom_draw s = s) :
    (EEVEE_draw_effects F S env st).effects.final_tx = st.txl.color
      ∧ (EEVEE_draw_effects F S env st).txl.color = st.txl.color_double_buffer
      ∧ (EEVEE_draw_effects F S env st).txl.color_double_buffer = st.txl.color
      ∧ (EEVEE_draw_effects F S env st).txl
          = { st.txl with color := st.txl.color_double_buffer,
                          color_double_buffer := st.txl.color }
      ∧ (EEVEE_draw_effects F S env st).fbl
          = { st.fbl with
              main_fb := st.fbl.double_buffer_fb, double_buffer_fb := st.fbl.main_fb,
              main_color_fb := st.fbl.double_buffer_color_fb,
              double_buffer_color_fb := st.fbl.main_color_fb }
      ∧ (EEVEE_draw_effects F S env st).effects.swap_double_buffer = false := by
  obtain ⟨e1, e2, -, e4, e5, -, e7⟩ := draw_effects_begin_fields F env st
  have hs : draw_effects_stack F S env st = draw_effects_begin F env st := by
    have h := hpass (draw_effects_begin F env st) (e4.trans hE)
    rw [stack_eq, h.1, h.2.1, h.2.2.1, h.2.2.2]
  have hflag : has_flag st.effects.enabled_effects F.EFFECT_DOUBLE_BUFFER = true := by
    rw [has_flag_iff, hE, Nat.and_self]
    exact hbit
  obtain ⟨f1, f2, f3, f4⟩ := finish_buffers F env (draw_effects_begin F env st)
  have hswap_txl : (SWAP_DOUBLE_BUFFERS (draw_effects_begin F env st)).txl
      = { st.txl with color := st.txl.color_double_buffer,
                      color_double_buffer := st.txl.color } := by
    unfold SWAP_DOUBLE_BUFFERS
    rw [if_pos (e7.trans hflag)]
    simp [e1]
  have hswap_fbl : (SWAP_DOUBLE_BUFFERS (draw_effects_begin F env st)).fbl
      = { st.fbl with
          main_fb := st.fbl.double_buffer_fb, double_buffer_fb := st.fbl.main_fb,
          main_color_fb := st.fbl.double_buffer_color_fb,
          double_buffer_color_fb := st.fbl.main_color_fb } := by
    unfold SWAP_DOUBLE_BUFFERS
    rw [if_pos (e7.trans hflag)]
    simp [e2]
  unfold EEVEE_draw_effects
  rw [hs, f1, f2, f3, f4, hswap_txl, hswap_fbl, e5]
  exact ⟨rfl, rfl, rfl, rfl, rfl, rfl⟩

/-- C8 at the sample frame with the sample ping-pong stages, none of which is enabled by
`EFFECT_DOUBLE_BUFFER` alone. -/
theorem C8_double_buffer_only_swaps_once_witness :
    ((sample_frame 32).effects.enabled_effects = sample_flags.EFFECT_DOUBLE_BUFFER
        ∧ sample_flags.EFFECT_DOUBLE_BUFFER ≠ 0
        ∧ ∀ s : EEVEE_Data, s.effects.enabled_effects = sample_flags.EFFECT_DOUBLE_BUFFER →
            sample_stages.motion_blur_draw s = s ∧ sample_stages.depth_of_field_draw s = s
              ∧ sample_stages.temporal_sampling_draw s = s ∧ sample_stages.bloom_draw s = s)
      ∧ (EEVEE_draw_effects sample_flags sample_stages sample_draw_env
          (sample_frame 32)).effects.final_tx = (sample_frame 32).txl.color
      ∧ (EEVEE_draw_effects sample_flags sample_stages sample_draw_env
          (sample_frame 32)).txl.color = (sample_frame 32).txl.color_double_buffer
      ∧ (EEVEE_draw_effects sample_flags sample_stages sample_draw_env
          (sample_frame 32)).txl.color_double_buffer = (sample_frame 32).txl.color :=
  have hp : ∀ s : EEVEE_Data, s.effects.enabled_effects = sample_flags.EFFECT_DOUBLE_BUFFER →
      sample_stages.motion_blur_draw s = s ∧ sample_stages.depth_of_field_draw s = s
        ∧ sample_stages.temporal_sampling_draw s = s ∧ sample_stages.bloom_draw s = s :=
    fun s hs => ⟨sample_stage_pass_through 1 32 (by decide) s hs,
      sample_stage_pass_through 4 32 (by decide) s hs,
      sample_stage_pass_through 256 32 (by decide) s hs,
      sample_stage_pass_through 2 32 (by decide) s hs⟩
  ⟨⟨rfl, by decide, hp⟩,
    (C8_double_buffer_only_swaps_once sample_flags sample_stages sample_draw_env
      (sample_frame 32) rfl (by decide) hp).1,
    (C8_double_buffer_only_swaps_once sample_flags sample_stages sample_draw_env
      (sample_frame 32) rfl (by decide) hp).2.1,
    (C8_double_buffer_only_swaps_once sample_flags sample_stages sample_draw_env
      (sample_frame 32) rfl (by decide) hp).2.2.1⟩

/-- C9: provided the stages of the stack leave the validity flags and the enabled
effects alone, the calls `EEVEE_draw_effects` issues after the stack are exactly one
redraw request when the double buffer is enabled, the double buffer validity flag is
false on entry and no image render is running, and none otherwise; so in interactive
mode with TAA and the double buffer enabled a call entered with an invalid history
requests the redraw, and a call entered with a valid history does not. -/
theorem C9_history_warm_up_redraw (F : EffectFlags) (S : EffectStages) (env : DrawEnv)
    (st : EEVEE_Data)
    (hS : ∀ s : EEVEE_Data,
      ((S.motion_blur_draw s).g_data = s.g_data
        ∧ (S.motion_blur_draw s).effects.enabled_effects = s.effects.enabled_effects)
      ∧ ((S.depth_of_field_draw s).g_data = s.g_data
        ∧ (S.depth_of_field_draw s).effects.enabled_effects = s.effects.enabled_effects)
      ∧ ((S.temporal_sampling_draw s).g_data = s.g_data
        ∧ (S.temporal_sampling_draw s).effects.enabled_effects = s.effects.enabled_effects)
      ∧ ((S.bloom_draw s).g_data = s.g_data
        ∧ (S.bloom_draw s).effects.enabled_effects = s.effects.enabled_effects)) :
    (EEVEE_draw_effects F S env st).calls
        = (draw_effects_stack F S env st).calls
          ++ (if st.g_data.valid_double_buffer = false
                ∧ st.effects.enabled_effects &&& F.EFFECT_DOUBLE_BUFFER ≠ 0
                ∧ env.is_image_render = false
              then [DRWCall.viewport_request_redraw] else [])
      ∧ (env.is_image_render = false → st.effects.enabled_effects &&& F.EFFECT_TAA ≠ 0 →
          st.effects.enabled_effects &&& F.EFFECT_DOUBLE_BUFFER ≠ 0 →
          st.g_data.valid_double_buffer = false →
          (EEVEE_draw_effects F S env st).calls
            = (draw_effects_stack F S env st).calls ++ [DRWCall.viewport_request_redraw])
      ∧ (st.g_data.valid_double_buffer = true →
          (EEVEE_draw_effects F S env st).calls = (draw_effects_stack F S env st).calls) := by
  have hg : (draw_effects_stack F S env st).g_data = st.g_data
      ∧ (draw_effects_stack F S env st).effects.enabled_effects = st.effects.enabled_effects := by
    obtain ⟨-, -, e3, e4, -⟩ := draw_effects_begin_fields F env st
    rw [stack_eq]
    constructor
    · rw [(hS _).2.2.2.1, (hS _).2.2.1.1, (hS _).2.1.1, (hS _).1.1, e3]
    · rw [(hS _).2.2.2.2, (hS _).2.2.1.2, (hS _).2.1.2, (hS _).1.2, e4]
  have main := (finish_frame_state F env (draw_effects_stack F S env st)).1
  rw [hg.1, hg.2] at main
  refine ⟨main, ?_, ?_⟩
  · intro h1 _ h3 h4
    rw [EEVEE_draw_effects, main, if_pos ⟨h4, h3, h1⟩]
  · intro h
    rw [EEVEE_draw_effects, main, if_neg (by simp [h]), List.append_nil]

/-- C9 at the sample frame with TAA and the double buffer enabled (256 + 32) and the
history not yet valid: the redraw is requested. -/
theorem C9_history_warm_up_redraw_witness :
    (∀ s : EEVEE_Data,
      ((sample_stages.motion_blur_draw s).g_data = s.g_data
        ∧ (sample_stages.motion_blur_draw s).effects.enabled_effects
          = s.effects.enabled_effects)
      ∧ ((sample_stages.depth_of_field_draw s).g_data = s.g_data
        ∧ (sample_stages.depth_of_field_draw s).effects.enabled_effects
          = s.effects.enabled_effects)
      ∧ ((sample_stages.temporal_sampling_draw s).g_data = s.g_data
        ∧ (sample_stages.temporal_sampling_draw s).effects.enabled_effects
          = s.effects.enabled_effects)
      ∧ ((sample_stages.bloom_draw s).g_data = s.g_data
        ∧ (sample_stages.bloom_draw s).effects.enabled_effects = s.effects.enabled_effects))
      ∧ (EEVEE_draw_effects sample_flags sample_stages sample_draw_env
          (sample_frame 288)).calls
        = (draw_effects_stack sample_flags sample_stages sample_draw_env
            (sample_frame 288)).calls ++ [DRWCall.viewport_request_redraw] :=
  have hS : ∀ s : EEVEE_Data,
      ((sample_stages.motion_blur_draw s).g_data = s.g_data
        ∧ (sample_stages.motion_blur_draw s).effects.enabled_effects
          = s.effects.enabled_effects)
      ∧ ((sample_stages.depth_of_field_draw s).g_data = s.g_data
        ∧ (sample_stages.depth_of_field_draw s).effects.enabled_effects
          = s.effects.enabled_effects)
      ∧ ((sample_stages.temporal_sampling_draw s).g_data = s.g_data
        ∧ (sample_stages.temporal_sampling_draw s).effects.enabled_effects
          = s.effects.enabled_effects)
      ∧ ((sample_stages.bloom_draw s).g_data = s.g_data
        ∧ (sample_stages.bloom_draw s).effects.enabled_effects = s.effects.enabled_effects) :=
    fun s => ⟨sample_stage_frame 1 s, sample_stage_frame 4 s, sample_stage_frame 256 s,
      sample_stage_frame 2 s⟩
  ⟨hS, (C9_history_warm_up_redraw sample_flags sample_stages sample_draw_env
    (sample_frame 288) hS).2.1 rfl (by decide) (by decide) rfl⟩

/-- C10: at the end of `EEVEE_draw_effects` `prev_persmat` is the perspective matrix of
the current view; in an image render `valid_double_buffer` is true exactly when the
double buffer texture exists and `valid_taa_history` exactly when the TAA history
texture exists; in interactive mode, the stages leaving the flags alone, both validity
flags keep the values they had on entry. -/
theorem C10_frame_state_commit (F : EffectFlags) (S : EffectStages) (env : DrawEnv)
    (st : EEVEE_Data)
    (hS : ∀ s : EEVEE_Data, (S.motion_blur_draw s).g_data = s.g_data
      ∧ (S.depth_of_field_draw s).g_data = s.g_data
      ∧ (S.temporal_sampling_draw s).g_data = s.g_data
      ∧ (S.bloom_draw s).g_data = s.g_data) :
    (EEVEE_draw_effects F S env st).effects.prev_persmat = env.persmat
      ∧ (env.is_image_render = true →
          (EEVEE_draw_effects F S env st).g_data.valid_double_buffer
              = (EEVEE_draw_effects F S env st).txl.color_double_buffer.isSome
            ∧ (EEVEE_draw_effects F S env st).g_data.valid_taa_history
              = (EEVEE_draw_effects F S env st).txl.taa_history.isSome)
      ∧ (env.is_image_render = false →
          (EEVEE_draw_effects F S env st).g_data.valid_double_buffer
              = st.g_data.valid_double_buffer
            ∧ (EEVEE_draw_effects F S env st).g_data.valid_taa_history
              = st.g_data.valid_taa_history) := by
  obtain ⟨-, h2, h3, h4⟩ := finish_frame_state F env (draw_effects_stack F S env st)
  have hg : (draw_effects_stack F S env st).g_data = st.g_data := by
    obtain ⟨-, -, e3, -⟩ := draw_effects_begin_fields F env st
    rw [stack_eq, (hS _).2.2.2, (hS _).2.2.1, (hS _).2.1, (hS _).1, e3]
  refine ⟨h2, h3, ?_⟩
  intro h
  have := h4 h
  rw [hg] at this
  unfold EEVEE_draw_effects
  rw [this]
  exact ⟨rfl, rfl⟩

/-- C10 at the sample frame in interactive mode. -/
theorem C10_frame_state_commit_witness :
    (∀ s : EEVEE_Data, (sample_stages.motion_blur_draw s).g_data = s.g_data
        ∧ (sample_stages.depth_of_field_draw s).g_data = s.g_data
        ∧ (sample_stages.temporal_sampling_draw s).g_data = s.g_data
        ∧ (sample_stages.bloom_draw s).g_data = s.g_data)
      ∧ (EEVEE_draw_effects sample_flags sample_stages sample_draw_env
          (sample_frame 288)).effects.prev_persmat = sample_draw_env.persmat
      ∧ (EEVEE_draw_effects sample_flags sample_stages sample_draw_env
          (sample_frame 288)).g_data.valid_double_buffer
        = (sample_frame 288).g_data.valid_double_buffer :=
  have hS : ∀ s : EEVEE_Data, (sample_stages.motion_blur_draw s).g_data = s.g_data
      ∧ (sample_stages.depth_of_field_draw s).g_data = s.g_data
      ∧ (sample_stages.temporal_sampling_draw s).g_data = s.g_data
      ∧ (sample_stages.bloom_draw s).g_data = s.g_data :=
    fun s => ⟨(sample_stage_frame 1 s).1, (sample_stage_frame 4 s).1,
      (sample_stage_frame 256 s).1, (sample_stage_frame 2 s).1⟩
  ⟨hS, (C10_frame_state_commit sample_flags sample_stages sample_draw_env
      (sample_frame 288) hS).1,
    ((C10_frame_state_commit sample_flags sample_stages sample_draw_env
      (sample_frame 288) hS).2.2 rfl).1⟩

/-- C11: for every buffer state and effect set, once the post process stack has run
`EEVEE_draw_effects` sets `final_tx` to the current source buffer, and `final_fb` to the
TAA history framebuffer whenever `EFFECT_TAA` is enabled and the source buffer is the TAA
history texture; otherwise `final_fb` is the main framebuffer when the current target is
not the main colour framebuffer and the effect framebuffer when it is. The handles are
those held when the stack returns, before the pending double buffer swap. -/
theorem C11_final_texture_and_framebuffer (F : EffectFlags) (S : EffectStages) (env : DrawEnv)
    (st : EEVEE_Data) :
    (EEVEE_draw_effects F S env st).effects.final_tx
        = (draw_effects_stack F S env st).effects.source_buffer
      ∧ (EEVEE_draw_effects F S env st).effects.final_fb
        = (if (draw_effects_stack F S env st).effects.enabled_effects &&& F.EFFECT_TAA ≠ 0
              ∧ (draw_effects_stack F S env st).effects.source_buffer
                = (draw_effects_stack F S env st).txl.taa_history
            then (draw_effects_stack F S env st).fbl.taa_history_fb
          else if (draw_effects_stack F S env st).effects.target_buffer
              ≠ (draw_effects_stack F S env st).fbl.main_color_fb
            then (draw_effects_stack F S env st).fbl.main_fb
          else (draw_effects_stack F S env st).fbl.effect_fb) :=
  ⟨(finish_buffers F env (draw_effects_stack F S env st)).1,
    finish_final_fb F env (draw_effects_stack F S env st)⟩

/-- C12: for every viewport size `(w, h)`, `EEVEE_effects_init` asks
`DRW_texture_ensure_2D` for the max-depth pyramid texture at size
`(max(1, w/2), max(1, h/2))` with the truncating integer division of C, so a pyramid
texture created by the call has exactly these dimensions; both are at least 1 for every
viewport (a 0 or 1 pixel axis gives 1), they agree with the rounded-down half for a
non-negative axis, and the HiZ mip offset is set to 1. -/
theorem C12_half_resolution_pyramid (F : EffectFlags) (env : InitEnv)
    (vedata : EEVEE_DataEntry) :
    (∃ gpu : GPUState, (EEVEE_effects_init F env vedata).txl.maxzbuffer =
        (DRW_texture_ensure_2D gpu vedata.txl.maxzbuffer
          (max 1 (Int.tdiv env.viewport_size.1 2)) (max 1 (Int.tdiv env.viewport_size.2 2))
          (if env.gpu_is_intel then GPUTextureFormat.GPU_R32F
            else GPUTextureFormat.GPU_DEPTH_COMPONENT24) false true).1)
      ∧ (vedata.txl.maxzbuffer = none →
          ∃ t : GPUTexture, (EEVEE_effects_init F env vedata).txl.maxzbuffer = some t
            ∧ t.w = max 1 (Int.tdiv env.viewport_size.1 2)
            ∧ t.h = max 1 (Int.tdiv env.viewport_size.2 2)
            ∧ 1 ≤ t.w ∧ 1 ≤ t.h)
      ∧ (1 ≤ max_ii (c_div env.viewport_size.1 2) 1
          ∧ 1 ≤ max_ii (c_div env.viewport_size.2 2) 1)
      ∧ (0 ≤ env.viewport_size.1 →
          max_ii (c_div env.viewport_size.1 2) 1 = max 1 (env.viewport_size.1 / 2))
      ∧ (0 ≤ env.viewport_size.2 →
          max_ii (c_div env.viewport_size.2 2) 1 = max 1 (env.viewport_size.2 / 2))
      ∧ (max_ii (c_div 0 2) 1 = 1 ∧ max_ii (c_div 1 2) 1 = 1)
      ∧ (EEVEE_effects_init F env vedata).common_data.hiz_mip_offset = 1 := by
  have hm := provision_maxzbuffer F env
    { effects_ensure vedata with effects := effects_resolve F env (effects_ensure vedata).effects }
  rw [(half_size_eq env.viewport_size.1).1, (half_size_eq env.viewport_size.2).1] at hm
  refine ⟨⟨_, hm⟩, ?_, ⟨(half_size_eq _).2.1, (half_size_eq _).2.1⟩, (half_size_eq _).2.2,
    (half_size_eq _).2.2, ⟨by decide, by decide⟩, provision_hiz_mip_offset F env _⟩
  intro hn
  have hn2 : ({ effects_ensure vedata with
      effects := effects_resolve F env (effects_ensure vedata).effects } : EEVEE_Data).txl.maxzbuffer
      = none := hn
  rw [hn2] at hm
  refine ⟨_, hm, rfl, rfl, le_max_left _ _, le_max_left _ _⟩

/-- C12 at the sample environment: the 1920x1080 viewport gets a 960x540 pyramid. -/
theorem C12_half_resolution_pyramid_witness :
    sample_data.reenter.txl.maxzbuffer = none
      ∧ (∃ t : GPUTexture,
        (EEVEE_effects_init sample_flags sample_env sample_data.reenter).txl.maxzbuffer = some t
          ∧ t.w = max 1 (Int.tdiv sample_env.viewport_size.1 2)
          ∧ t.h = max 1 (Int.tdiv sample_env.viewport_size.2 2)
          ∧ 1 ≤ t.w ∧ 1 ≤ t.h)
      ∧ (EEVEE_effects_init sample_flags sample_env sample_data.reenter).txl.maxzbuffer
        = some ⟨1, 960, 540, GPUTextureFormat.GPU_DEPTH_COMPONENT24, false, true⟩ :=
  ⟨rfl, (C12_half_resolution_pyramid sample_flags sample_env sample_data.reenter).2.1 rfl,
    by decide⟩

/-- C13: when an axis of the viewport has the integer size `w >= 1`, held exactly by the
float viewport size (as every `w < 2^24` is), and the GPU module reports
`max(1, floor(w / 2^i))` for mip level `i` of the colour buffer on that axis, the
binary32 mip ratio stored by `EEVEE_effects_init` for that axis satisfies, for every `i`
from 0 to 9: `ratio[0] = 1`; `ratio[i] = 1` whenever `2^i` divides `w`;
`1 <= ratio[i] < 2` whenever `w >= 2^i`; and `ratio[i] = w / 2^i < 1` whenever
`w < 2^i`. Stated for the first and for the second axis. -/
theorem C13_mip_ratio_of_viewport_sized_chain (F : EffectFlags) (env : InitEnv)
    (vedata : EEVEE_DataEntry) (w : Int) (hw : 1 ≤ w)
    (hrep : F32.of_int w = F32.fin (w : ℚ)) :
    (env.viewport_size.1 = w →
        (∀ i : Fin 10, (env.GPU_texture_get_mipmap_size vedata.txl.color i.val).1
          = max 1 (w / 2 ^ i.val)) →
        ((EEVEE_effects_init F env vedata).common_data.mip_ratio 0).1 = F32.fin 1
          ∧ ∀ i : Fin 10,
            ((2 : Int) ^ i.val ∣ w →
                ((EEVEE_effects_init F env vedata).common_data.mip_ratio i).1 = F32.fin 1)
              ∧ ((2 : Int) ^ i.val ≤ w →
                ∃ r : ℚ, ((EEVEE_effects_init F env vedata).common_data.mip_ratio i).1
                  = F32.fin r ∧ 1 ≤ r ∧ r < 2)
              ∧ (w < (2 : Int) ^ i.val →
                ((EEVEE_effects_init F env vedata).common_data.mip_ratio i).1
                    = F32.fin ((w : ℚ) / (2 : ℚ) ^ i.val)
                  ∧ (w : ℚ) / (2 : ℚ) ^ i.val < 1))
      ∧ (env.viewport_size.2 = w →
        (∀ i : Fin 10, (env.GPU_texture_get_mipmap_size vedata.txl.color i.val).2
          = max 1 (w / 2 ^ i.val)) →
        ((EEVEE_effects_init F env vedata).common_data.mip_ratio 0).2 = F32.fin 1
          ∧ ∀ i : Fin 10,
            ((2 : Int) ^ i.val ∣ w →
                ((EEVEE_effects_init F env vedata).common_data.mip_ratio i).2 = F32.fin 1)
              ∧ ((2 : Int) ^ i.val ≤ w →
                ∃ r : ℚ, ((EEVEE_effects_init F env vedata).common_data.mip_ratio i).2
                  = F32.fin r ∧ 1 ≤ r ∧ r < 2)
              ∧ (w < (2 : Int) ^ i.val →
                ((EEVEE_effects_init F env vedata).common_data.mip_ratio i).2
                    = F32.fin ((w : ℚ) / (2 : ℚ) ^ i.val)
                  ∧ (w : ℚ) / (2 : ℚ) ^ i.val < 1)) := by
  have hi : ∀ i : Fin 10, i.val ≤ 9 := fun i => by omega
  constructor
  · intro hv hm
    have all : ∀ i : Fin 10,
        ((2 : Int) ^ i.val ∣ w →
            ((EEVEE_effects_init F env vedata).common_data.mip_ratio i).1 = F32.fin 1)
          ∧ ((2 : Int) ^ i.val ≤ w →
            ∃ r : ℚ, ((EEVEE_effects_init F env vedata).common_data.mip_ratio i).1
              = F32.fin r ∧ 1 ≤ r ∧ r < 2)
          ∧ (w < (2 : Int) ^ i.val →
            ((EEVEE_effects_init F env vedata).common_data.mip_ratio i).1
                = F32.fin ((w : ℚ) / (2 : ℚ) ^ i.val)
              ∧ (w : ℚ) / (2 : ℚ) ^ i.val < 1) := by
      intro i
      rw [init_mip_ratio_eq F env vedata i, hm i, hv]
      exact chain_axis_bounds w hw hrep i.val (hi i)
    refine ⟨?_, all⟩
    have h0 := (all 0).1
    simp only [Fin.val_zero, pow_zero] at h0
    exact h0 (one_dvd w)
  · intro hv hm
    have all : ∀ i : Fin 10,
        ((2 : Int) ^ i.val ∣ w →
            ((EEVEE_effects_init F env vedata).common_data.mip_ratio i).2 = F32.fin 1)
          ∧ ((2 : Int) ^ i.val ≤ w →
            ∃ r : ℚ, ((EEVEE_effects_init F env vedata).common_data.mip_ratio i).2
              = F32.fin r ∧ 1 ≤ r ∧ r < 2)
          ∧ (w < (2 : Int) ^ i.val →
            ((EEVEE_effects_init F env vedata).common_data.mip_ratio i).2
                = F32.fin ((w : ℚ) / (2 : ℚ) ^ i.val)
              ∧ (w : ℚ) / (2 : ℚ) ^ i.val < 1) := by
      intro i
      rw [init_mip_ratio_eq F env vedata i, hm i, hv]
      exact chain_axis_bounds w hw hrep i.val (hi i)
    refine ⟨?_, all⟩
    have h0 := (all 0).1
    simp only [Fin.val_zero, pow_zero] at h0
    exact h0 (one_dvd w)

/-- C13 at the sample environment with the viewport-sized colour buffer, on the 1920
pixel axis: entries 0 and 7 are 1 and entry 8 lies in `[1, 2)`. -/
theorem C13_mip_ratio_of_viewport_sized_chain_witness :
    ((1 : Int) ≤ 1920 ∧ F32.of_int 1920 = F32.fin ((1920 : Int) : ℚ)
        ∧ sample_env_query.viewport_size.1 = 1920
        ∧ ∀ i : Fin 10,
          (sample_env_query.GPU_texture_get_mipmap_size sample_entry_fullres.txl.color i.val).1
            = max 1 (1920 / 2 ^ i.val))
      ∧ ((EEVEE_effects_init sample_flags sample_env_query
          sample_entry_fullres).common_data.mip_ratio 0).1 = F32.fin 1
      ∧ ((EEVEE_effects_init sample_flags sample_env_query
          sample_entry_fullres).common_data.mip_ratio 7).1 = F32.fin 1
      ∧ (∃ r : ℚ, ((EEVEE_effects_init sample_flags sample_env_query
            sample_entry_fullres).common_data.mip_ratio 8).1 = F32.fin r ∧ 1 ≤ r ∧ r < 2) :=
  have hm : ∀ i : Fin 10,
      (sample_env_query.GPU_texture_get_mipmap_size sample_entry_fullres.txl.color i.val).1
        = max 1 (1920 / 2 ^ i.val) := by decide
  have hrep : F32.of_int 1920 = F32.fin ((1920 : Int) : ℚ) := of_int_exact 1920 (by decide)
  ⟨⟨by decide, hrep, rfl, hm⟩,
    ((C13_mip_ratio_of_viewport_sized_chain sample_flags sample_env_query sample_entry_fullres
      1920 (by decide) hrep).1 rfl hm).1,
    (((C13_mip_ratio_of_viewport_sized_chain sample_flags sample_env_query sample_entry_fullres
      1920 (by decide) hrep).1 rfl hm).2 7).1 (by decide),
    (((C13_mip_ratio_of_viewport_sized_chain sample_flags sample_env_query sample_entry_fullres
      1920 (by decide) hrep).1 rfl hm).2 8).2.1 (by decide)⟩

end Eevee
